import Mathlib

/-!
# Verification of the ITK_Playground repository against its specification

This file gives a shallow embedding of the parts of the ITK_Playground
sources that the specification talks about, and proves or refutes the
specification's claims about them.

Embedded components:

* `create_step_wedge.cxx` : the step-wedge synthesizer
  (`create_step_wedge`), its pixel-value formula, its pixel geometry and
  its painting loops.  The geometric quantities are exact decimal numbers
  (`0.59`, `0.2`, `5.00`, ...) scaled by an integer dpi, so the `double`
  arithmetic of the source is represented exactly by rational arithmetic;
  `round` is half-away-from-zero in C, which agrees with Mathlib's
  half-up `round` on the nonnegative values that occur here.  The
  `static_cast<uint16_t>` narrowing conversion from `double` is undefined
  behaviour outside `[0, 65535]`; it is modelled by an `Option`-valued
  cast that is `none` out of range.
* `stat_demo.cpp` : the frequency table (`std::map<int,int>`) of the
  statistics demo, modelled as an association list, together with the
  normalization pass that overwrites the counts, and the integer checks on
  `--mean` / `--standard-deviation`.
* the `main` functions of all fourteen programs: their control flow is
  embedded as total functions from an environment record (outcomes of
  filesystem tests, CLI switches, and whether each toolkit call throws)
  to the run's observable events and exit status.
-/

namespace ITKPlayground

/-! ## The uint16 narrowing conversion

`static_cast<uint16_t>` applied to a nonnegative in-range `double` value
truncates it to the same integer; applied to a value outside
`[0, 65535]` the conversion is undefined behaviour ([conv.fpint]), which
the model signals with `none`. -/

/-- Model of `static_cast<uint16_t>` applied to an integral `double`
value: the identity on `[0, 65535]`, undefined (`none`) outside. -/
def u16cast (x : ℤ) : Option ℤ :=
  if 0 ≤ x ∧ x ≤ 65535 then some x else none

theorem u16cast_of_mem {x : ℤ} (h0 : 0 ≤ x) (h1 : x ≤ 65535) :
    u16cast x = some x := by
  simp [u16cast, h0, h1]

theorem u16cast_of_gt {x : ℤ} (h : 65535 < x) : u16cast x = none := by
  simp only [u16cast, ite_eq_right_iff]
  intro hc
  exact absurd hc.2 (not_le.mpr h)

/-! ## Step-wedge geometry (`create_step_wedge.cxx`, lines 334-467)

Physical dimensions in inches, exactly as declared in the source:
`stepWedgeWidth = 0.50`, `stepWedgeHeight = 5.00`,
`imageWidth = stepWedgeWidth + 0.80 * stepWedgeWidth`,
`imageHeight = stepWedgeHeight + 0.80 * stepWedgeWidth`,
`firstStepWidth = 0.59`, `stepWidth = 0.2`. -/

def stepWedgeWidth : ℚ := 0.50
def stepWedgeHeight : ℚ := 5.00
def imageWidth : ℚ := stepWedgeWidth + 0.80 * stepWedgeWidth
def imageHeight : ℚ := stepWedgeHeight + 0.80 * stepWedgeWidth
def firstStepWidth : ℚ := 0.59
def stepWidth : ℚ := 0.2

/-- `NumRows = round(imageHeight * dpi)` (before the uint16 cast). -/
def NumRows (dpi : ℕ) : ℤ := round (imageHeight * dpi)

/-- `NumCols = round(imageWidth * dpi)` (before the uint16 cast). -/
def NumCols (dpi : ℕ) : ℤ := round (imageWidth * dpi)

/-- `stepWedgeOrigin = round(0.40 * stepWedgeWidth * dpi)`, both
coordinates. -/
def stepWedgeOrigin (dpi : ℕ) : ℤ := round (0.40 * stepWedgeWidth * dpi)

/-- `stepWedgeSize[0] = round(stepWedgeWidth * dpi)`. -/
def stepWedgeSizeX (dpi : ℕ) : ℤ := round (stepWedgeWidth * dpi)

/-- `stepWedgeSize[1] = round(stepWedgeHeight * dpi)`. -/
def stepWedgeSizeY (dpi : ℕ) : ℤ := round (stepWedgeHeight * dpi)

/-- Vertical pixel extent painted for step `k`.  Step 20 keeps the whole
wedge height (`stepSize` is initialised to `stepWedgeSize`); a step
`k < 20` gets `round((firstStepWidth + k * stepWidth) * dpi)`.  The
first step, painted separately in the source with
`round(firstStepWidth * dpi)`, is the `k = 0` instance of the same
formula. -/
def stepHeight (dpi : ℕ) (k : ℕ) : ℤ :=
  if k = 20 then stepWedgeSizeY dpi
  else round ((firstStepWidth + (k : ℚ) * stepWidth) * dpi)

example : stepWedgeOrigin 400 = 80 := by
  unfold stepWedgeOrigin stepWedgeWidth
  norm_num [round_eq]

example : stepHeight 400 0 = 236 := by
  unfold stepHeight firstStepWidth stepWidth
  norm_num [round_eq]

example : stepHeight 400 20 = 2000 := by
  unfold stepHeight stepWedgeSizeY stepWedgeHeight
  norm_num [round_eq]

example : NumRows 400 = 2160 ∧ NumCols 400 = 360 := by
  constructor <;>
    norm_num [NumRows, NumCols, imageHeight, imageWidth, stepWedgeHeight,
      stepWedgeWidth, round_eq]

/-- `round` is monotone (any linear ordered field with a floor). -/
theorem round_le_round {α : Type*} [LinearOrderedField α] [FloorRing α]
    {a b : α} (h : a ≤ b) : round a ≤ round b := by
  rw [round_eq, round_eq]
  exact Int.floor_le_floor (by linarith)

/-- The painted vertical extents are monotone in the step index (used to
establish that the step rectangles are nested). -/
theorem stepHeight_mono (dpi : ℕ) {j k : ℕ} (hjk : j ≤ k) (hk : k ≤ 20) :
    stepHeight dpi j ≤ stepHeight dpi k := by
  unfold stepHeight stepWedgeSizeY
  rcases eq_or_lt_of_le hk with h20 | hlt
  · subst h20
    rcases eq_or_lt_of_le hjk with h | h
    · subst h; simp
    · have hj : ¬ (j = 20) := by omega
      simp only [hj, if_false, if_pos rfl]
      apply round_le_round
      have : (j : ℚ) ≤ 19 := by exact_mod_cast (by omega : j ≤ 19)
      unfold firstStepWidth stepWidth stepWedgeHeight
      have hd : (0 : ℚ) ≤ (dpi : ℚ) := by positivity
      nlinarith
  · have hj : ¬ (j = 20) := by omega
    have hk' : ¬ (k = 20) := by omega
    simp only [hj, hk', if_false]
    apply round_le_round
    have : (j : ℚ) ≤ (k : ℚ) := by exact_mod_cast hjk
    unfold firstStepWidth stepWidth
    have hd : (0 : ℚ) ≤ (dpi : ℚ) := by positivity
    nlinarith

/-- The step-wedge origin is a nonnegative pixel index. -/
theorem stepWedgeOrigin_nonneg (dpi : ℕ) : 0 ≤ stepWedgeOrigin dpi := by
  unfold stepWedgeOrigin stepWedgeWidth
  rw [round_eq]
  have : (0 : ℚ) ≤ 0.40 * 0.50 * dpi + 1 / 2 := by positivity
  exact_mod_cast Int.le_floor.mpr (by exact_mod_cast this)

/-- Horizontal in-bounds inequality of the painting loops:
`round(0.2*dpi) + round(0.5*dpi) ≤ round(0.9*dpi)` for every dpi. -/
theorem origin_add_sizeX_le_NumCols (dpi : ℕ) :
    stepWedgeOrigin dpi + stepWedgeSizeX dpi ≤ NumCols dpi := by
  unfold stepWedgeOrigin stepWedgeSizeX NumCols imageWidth stepWedgeWidth
  by_cases h3 : 3 ≤ dpi
  · have hd : (3 : ℚ) ≤ (dpi : ℚ) := by exact_mod_cast h3
    have h1 : (round (0.40 * 0.50 * (dpi : ℚ)) : ℚ) ≤ 0.40 * 0.50 * dpi + 1 / 2 :=
      round_le_add_half _
    have h2 : (round (0.50 * (dpi : ℚ)) : ℚ) ≤ 0.50 * dpi + 1 / 2 :=
      round_le_add_half _
    have h4 : ((0.50 + 0.80 * 0.50) * (dpi : ℚ)) - 1 / 2
        < (round ((0.50 + 0.80 * 0.50) * (dpi : ℚ)) : ℚ) := sub_half_lt_round _
    have : ((round (0.40 * 0.50 * (dpi : ℚ)) + round (0.50 * (dpi : ℚ)) : ℤ) : ℚ)
        < (round ((0.50 + 0.80 * 0.50) * (dpi : ℚ)) : ℚ) + 1 := by
      push_cast
      linarith
    exact_mod_cast Int.lt_add_one_iff.mp (by exact_mod_cast this)
  · interval_cases dpi <;> norm_num [round_eq]

/-- Vertical in-bounds inequality of the painting loops:
`round(0.2*dpi) + round(5.0*dpi) ≤ round(5.4*dpi)` for every dpi. -/
theorem origin_add_sizeY_le_NumRows (dpi : ℕ) :
    stepWedgeOrigin dpi + stepWedgeSizeY dpi ≤ NumRows dpi := by
  unfold stepWedgeOrigin stepWedgeSizeY NumRows imageHeight stepWedgeHeight stepWedgeWidth
  have h5 : (5.00 : ℚ) * dpi = ((5 * dpi : ℤ) : ℚ) := by push_cast; ring
  rw [h5, round_intCast]
  have : round (0.40 * 0.50 * (dpi : ℚ)) + (5 * dpi : ℤ)
      = round (0.40 * 0.50 * (dpi : ℚ) + ((5 * dpi : ℤ) : ℚ)) := by
    rw [round_add_int]
  rw [this]
  apply round_le_round
  push_cast
  have hd : (0 : ℚ) ≤ (dpi : ℚ) := by positivity
  nlinarith

/-! ## Step-wedge pixel values (`create_step_wedge.cxx`, lines 394-402 and
436-444)

Each of the three RGB components of a step's pixel is assigned the same
expression `static_cast<uint16_t>(round(2140.00 + exp(-(od[k] - 6.966)/0.63)))`.
The `double` expression is modelled over the reals. -/

/-- The value `2140.00 + exp(-(d - 6.966)/0.63)` computed for a density
`d`. -/
noncomputable def stepPixelReal (d : ℝ) : ℝ :=
  2140.00 + Real.exp (-(d - 6.966) / 0.63)

/-- The rounded pixel value before the uint16 narrowing conversion. -/
noncomputable def stepPixelRounded (d : ℝ) : ℤ := round (stepPixelReal d)

/-- The value actually stored in a pixel component: the rounded value
pushed through the (possibly undefined) uint16 narrowing conversion. -/
noncomputable def stepPixelValue (d : ℝ) : Option ℤ := u16cast (stepPixelRounded d)

/-- An RGB16 pixel of the model; `none` components record that the
narrowing conversion that produced them was undefined behaviour. -/
structure RGBPix where
  r : Option ℤ
  g : Option ℤ
  b : Option ℤ

/-- The pixel written for a step of density `d`: the source computes the
identical expression for `pixelValue[0]`, `pixelValue[1]`,
`pixelValue[2]`. -/
noncomputable def stepRGB (d : ℝ) : RGBPix :=
  ⟨stepPixelValue d, stepPixelValue d, stepPixelValue d⟩

/-- The white fill `(65535, 65535, 65535)` from `image->FillBuffer`. -/
def whitePix : RGBPix := ⟨some 65535, some 65535, some 65535⟩

/-- Modelled from the spec's words for claim C1: the rounded value
"saturated to the interval [0, 65535]".  (The source itself performs no
saturation; this definition is only the comparison point.) -/
noncomputable def specSaturatedValue (d : ℝ) : ℤ :=
  max 0 (min 65535 (stepPixelRounded d))

/-- The rounded pixel value is always at least 2140: the exponential term
is positive. -/
theorem stepPixelRounded_ge (d : ℝ) : 2140 ≤ stepPixelRounded d := by
  have h : (2140 : ℝ) ≤ stepPixelReal d := by
    unfold stepPixelReal
    have := Real.exp_pos (-(d - 6.966) / 0.63)
    linarith
  have := round_le_round h
  simpa using this

/-! ## The painting loops (`create_step_wedge.cxx`, lines 391-463)

The image buffer is modelled as a total function from pixel indices to
pixels; the allocated region and the in-bounds property are treated by
the C4 theorems.  The loop `for (step = 20; step > 0; --step)` paints
steps 20, 19, ..., 1, each over the rectangle starting at
`stepWedgeOrigin` with width `stepWedgeSizeX` and height
`stepHeight dpi step`; the first step is painted afterwards with height
`stepHeight dpi 0 = round(firstStepWidth * dpi)`.  The density array
`od` (a `std::array<double, 21>`) is modelled as a function `ℕ → ℝ`; the
code reads only indices 0..20 of it. -/

/-- Pixel `p` lies in the rectangle painted for step `k`. -/
def inStepRect (dpi : ℕ) (k : ℕ) (p : ℤ × ℤ) : Prop :=
  stepWedgeOrigin dpi ≤ p.1 ∧ p.1 < stepWedgeOrigin dpi + stepWedgeSizeX dpi ∧
  stepWedgeOrigin dpi ≤ p.2 ∧ p.2 < stepWedgeOrigin dpi + stepHeight dpi k

instance (dpi k : ℕ) (p : ℤ × ℤ) : Decidable (inStepRect dpi k p) := by
  unfold inStepRect; infer_instance

/-- Painting one step: the double `for` loop over the step's rectangle,
writing the step's pixel value into every covered index. -/
noncomputable def paintStep (od : ℕ → ℝ) (dpi : ℕ) (k : ℕ)
    (img : ℤ × ℤ → RGBPix) : ℤ × ℤ → RGBPix :=
  fun p => if inStepRect dpi k p then stepRGB (od k) else img p

/-- The loop `for (step = n; step > 0; --step)` painting steps
`n, n-1, ..., 1` onto `img`. -/
noncomputable def paintStepsDown (od : ℕ → ℝ) (dpi : ℕ) :
    ℕ → ((ℤ × ℤ) → RGBPix) → ((ℤ × ℤ) → RGBPix)
  | 0, img => img
  | k + 1, img => paintStepsDown od dpi k (paintStep od dpi (k + 1) img)

/-- The image produced by `create_step_wedge`: a white-filled buffer,
steps 20 down to 1 painted by the loop, then step 0 painted separately. -/
noncomputable def stepWedgeImage (od : ℕ → ℝ) (dpi : ℕ) : ℤ × ℤ → RGBPix :=
  paintStep od dpi 0 (paintStepsDown od dpi 20 (fun _ => whitePix))

/-- Pixels covered by none of the steps `1..n` are untouched by the
descending painting loop. -/
theorem paintStepsDown_eq_of_not_mem (od : ℕ → ℝ) (dpi : ℕ)
    (n : ℕ) (img : ℤ × ℤ → RGBPix) (p : ℤ × ℤ)
    (h : ∀ k, 1 ≤ k → k ≤ n → ¬ inStepRect dpi k p) :
    paintStepsDown od dpi n img p = img p := by
  induction n generalizing img with
  | zero => rfl
  | succ m ih =>
    rw [paintStepsDown, ih]
    · unfold paintStep
      rw [if_neg (h (m + 1) (by omega) (by omega))]
    · intro k h1 h2
      exact h k h1 (by omega)

/-- On a pixel whose least covering step among `1..n` is `k`, the
descending painting loop leaves step `k`'s value (later paints, with
smaller indices, win). -/
theorem paintStepsDown_eq_of_least (od : ℕ → ℝ) (dpi : ℕ)
    (n : ℕ) (img : ℤ × ℤ → RGBPix) (p : ℤ × ℤ) (k : ℕ)
    (hk1 : 1 ≤ k) (hkn : k ≤ n) (hin : inStepRect dpi k p)
    (hleast : ∀ m, 1 ≤ m → m < k → ¬ inStepRect dpi m p) :
    paintStepsDown od dpi n img p = stepRGB (od k) := by
  induction n generalizing img with
  | zero => omega
  | succ m ih =>
    rw [paintStepsDown]
    rcases Nat.lt_or_ge k (m + 1) with hlt | hge
    · exact ih _ (by omega)
    · have hkm : k = m + 1 := by omega
      subst hkm
      rw [paintStepsDown_eq_of_not_mem]
      · unfold paintStep
        rw [if_pos hin]
      · intro j h1 h2
        exact hleast j h1 (by omega)

/-- Final-image characterization: at a pixel whose least covering step
(among 0..20) is `k`, the returned image holds step `k`'s pixel value. -/
theorem stepWedgeImage_eq_of_least (od : ℕ → ℝ) (dpi : ℕ) (p : ℤ × ℤ)
    (k : ℕ) (hk : k ≤ 20) (hin : inStepRect dpi k p)
    (hleast : ∀ m, m < k → ¬ inStepRect dpi m p) :
    stepWedgeImage od dpi p = stepRGB (od k) := by
  unfold stepWedgeImage
  rcases Nat.eq_zero_or_pos k with h0 | h1
  · subst h0
    unfold paintStep
    rw [if_pos hin]
  · unfold paintStep
    rw [if_neg (hleast 0 h1)]
    exact paintStepsDown_eq_of_least od dpi 20 _ p k h1 hk hin
      (fun m hm1 hm2 => hleast m hm2)

/-- Pixels covered by no step at all keep the white fill. -/
theorem stepWedgeImage_eq_white (od : ℕ → ℝ) (dpi : ℕ) (p : ℤ × ℤ)
    (h : ∀ k, k ≤ 20 → ¬ inStepRect dpi k p) :
    stepWedgeImage od dpi p = whitePix := by
  unfold stepWedgeImage paintStep
  rw [if_neg (h 0 (by omega)), paintStepsDown_eq_of_not_mem]
  intro k h1 h2
  exact h k (by omega)

/-! ## The statistics demo's frequency table (`stat_demo.cpp`)

The `std::map<int, int> table` is modelled as an association list from
bucket value to stored integer.  `++table[v]` value-initialises a
missing entry to 0 and increments it (`bump`).  The population loop
(lines 255-256) folds `bump` over the 10000 drawn rounded samples,
which the model receives as a list.  The statistics pass (lines
261-270) first sums all occurrence counts and then overwrites each
entry with `round((occurrence / total) * 1000)`, reading each original
count exactly once. -/

/-- `++table[v]` on the association-list model of `std::map<int,int>`. -/
def bump : List (ℤ × ℤ) → ℤ → List (ℤ × ℤ)
  | [], v => [(v, 1)]
  | (k, c) :: t, v => if k = v then (k, c + 1) :: t else (k, c) :: bump t v

/-- The population loop: `for (i = 0; i < 10000; ++i) ++table[random_int()]`,
folded over the list of drawn rounded samples. -/
def buildTable (samples : List ℤ) : List (ℤ × ℤ) :=
  samples.foldl bump []

/-- Key lookup in the association-list table. -/
def tlookup : List (ℤ × ℤ) → ℤ → Option ℤ
  | [], _ => none
  | (k, c) :: t, v => if k = v then some c else tlookup t v

/-- `total_occurences`: the sum of all stored values (lines 261-265). -/
def tableTotal (t : List (ℤ × ℤ)) : ℤ := (t.map Prod.snd).sum

/-- The overwriting loop (lines 266-270) with the total fixed: each entry
`(k, c)` becomes `(k, round((c / total) * 1000))`. -/
def normalizeWith (total : ℤ) : List (ℤ × ℤ) → List (ℤ × ℤ)
  | [] => []
  | (k, c) :: t => (k, round (((c : ℚ) / (total : ℚ)) * 1000)) :: normalizeWith total t

/-- The full statistics-pass rewrite of the table. -/
def normalizeTable (t : List (ℤ × ℤ)) : List (ℤ × ℤ) :=
  normalizeWith (tableTotal t) t

theorem tlookup_bump (t : List (ℤ × ℤ)) (v w : ℤ) :
    tlookup (bump t v) w =
      if w = v then some ((tlookup t w).getD 0 + 1) else tlookup t w := by
  induction t with
  | nil =>
    by_cases h : w = v <;> simp [bump, tlookup, h, Ne.symm]
  | cons kc t ih =>
    obtain ⟨k, c⟩ := kc
    by_cases hkv : k = v
    · subst hkv
      by_cases hwv : w = k
      · subst hwv
        simp [bump, tlookup]
      · have hkw : ¬ (k = w) := fun h => hwv h.symm
        simp [bump, tlookup, hwv, hkw]
    · by_cases hwk : k = w
      · subst hwk
        simp [bump, hkv, tlookup]
      · simp [bump, hkv, tlookup, hwk, ih]

theorem tlookup_foldl_bump_count (s : List ℤ) (t : List (ℤ × ℤ)) (w : ℤ) :
    (tlookup (s.foldl bump t) w).getD 0 = (tlookup t w).getD 0 + s.count w := by
  induction s generalizing t with
  | nil => simp
  | cons v s ih =>
    rw [List.foldl_cons, ih, tlookup_bump]
    by_cases h : w = v
    · subst h
      simp [List.count_cons]
      omega
    · simp [List.count_cons, h]

theorem tlookup_foldl_bump_none (s : List ℤ) (t : List (ℤ × ℤ)) (w : ℤ) :
    tlookup (s.foldl bump t) w = none ↔ tlookup t w = none ∧ w ∉ s := by
  induction s generalizing t with
  | nil => simp
  | cons v s ih =>
    rw [List.foldl_cons, ih, tlookup_bump]
    by_cases h : w = v
    · subst h
      simp
    · simp [h, Ne.symm]

/-- Keys of the built table are exactly the drawn samples. -/
theorem buildTable_mem_iff (samples : List ℤ) (w : ℤ) :
    (∃ c, tlookup (buildTable samples) w = some c) ↔ w ∈ samples := by
  unfold buildTable
  rw [← Option.ne_none_iff_exists']
  rw [ne_eq, tlookup_foldl_bump_none]
  simp [tlookup]

/-- The built table stores the occurrence count of each present key. -/
theorem buildTable_count (samples : List ℤ) (w : ℤ) (c : ℤ)
    (h : tlookup (buildTable samples) w = some c) : c = samples.count w := by
  have h2 := tlookup_foldl_bump_count samples [] w
  unfold buildTable at h
  rw [h] at h2
  simpa [tlookup] using h2

theorem tlookup_normalizeWith (total : ℤ) (t : List (ℤ × ℤ)) (w : ℤ) :
    tlookup (normalizeWith total t) w =
      (tlookup t w).map (fun c : ℤ => round (((c : ℚ) / (total : ℚ)) * 1000)) := by
  induction t with
  | nil => simp [normalizeWith, tlookup]
  | cons kc t ih =>
    obtain ⟨k, c⟩ := kc
    by_cases h : k = w <;> simp [normalizeWith, tlookup, h, ih]

/-- Folding `bump` with a constant sample only grows that sample's
entry. -/
theorem foldl_bump_replicate (n : ℕ) (v : ℤ) (m : ℤ) :
    (List.replicate n v).foldl bump [(v, m)] = [(v, m + (n : ℤ))] := by
  induction n generalizing m with
  | zero => simp
  | succ k ih =>
    rw [List.replicate_succ, List.foldl_cons]
    have hb : bump [(v, m)] v = [(v, m + 1)] := by simp [bump]
    rw [hb, ih]
    simp only [List.cons.injEq, Prod.mk.injEq, true_and, and_true]
    push_cast
    ring

theorem buildTable_replicate (n : ℕ) (v : ℤ) (hn : n ≠ 0) :
    buildTable (List.replicate n v) = [(v, (n : ℤ))] := by
  obtain ⟨k, rfl⟩ := Nat.exists_eq_succ_of_ne_zero hn
  unfold buildTable
  rw [List.replicate_succ, List.foldl_cons]
  have hb : bump [] v = [(v, 1)] := by simp [bump]
  rw [hb, foldl_bump_replicate]
  simp only [List.cons.injEq, Prod.mk.injEq, true_and, and_true]
  push_cast
  ring

/-! ## Control flow of the programs' `main` functions

Each program's `main` is embedded as a total function of the outcomes
of its environment-dependent branch conditions, passed as explicit
arguments: which CLI switches were passed, the results of the
filesystem tests, and whether each toolkit call throws.  A `Run`
collects, in program order, the observable events the claims talk
about (diagnostic prints, printed exception descriptions,
informational prints, invocations of toolkit pipeline operations) and
the way the process ends: `.code n` for a `return n` from `main`,
`.aborted` for `std::terminate` caused by an exception (including a
thrown `int`) that escapes `main`. -/

/-- Observable events of a program run. -/
inductive Ev where
  | diag : String → Ev
  | excDesc : String → Ev
  | info : String → Ev
  | pipelineOp : String → Ev
  deriving DecidableEq

/-- How the process terminates. -/
inductive ExitStatus where
  | code : ℕ → ExitStatus
  | aborted : ExitStatus

/-- One program run: ordered observable events and the termination. -/
structure Run where
  events : List Ev
  exit : ExitStatus

/-- Prefix a run with earlier events. -/
def Run.prepend (es : List Ev) (r : Run) : Run := ⟨es ++ r.events, r.exit⟩

/-- Print a diagnostic and terminate with `EXIT_FAILURE`. -/
def failDiag (msg : String) : Run := ⟨[.diag msg], .code 1⟩

/-- Print something informational and terminate with `EXIT_SUCCESS`
(help/usage/version paths). -/
def okInfo (msg : String) : Run := ⟨[.info msg], .code 0⟩

/-- A pipeline call wrapped in
`try ... catch (itk::ExceptionObject) (print description; fail with 1)`. -/
def guardedUpdate (site : String) (throws : Bool) (rest : Run) : Run :=
  if throws then ⟨[.pipelineOp site, .excDesc site], .code 1⟩
  else Run.prepend [.pipelineOp site] rest

/-- A pipeline call with no enclosing handler at all: a thrown toolkit
exception escapes `main` and the process aborts, printing nothing. -/
def unguardedUpdate (site : String) (throws : Bool) (rest : Run) : Run :=
  if throws then ⟨[.pipelineOp site], .aborted⟩
  else Run.prepend [.pipelineOp site] rest

/-- A pipeline call whose handler prints the exception description but
then executes `throw EXIT_FAILURE` outside any enclosing try block, so
the thrown `int` escapes `main` and the process aborts
(`step_wedge_denoise.cxx`, lines 144-153). -/
def guardedUpdateThenAbort (site : String) (throws : Bool) (rest : Run) : Run :=
  if throws then ⟨[.pipelineOp site, .excDesc site], .aborted⟩
  else Run.prepend [.pipelineOp site] rest

/-- A toolkit metadata probe (`ReadImageInformation`) — not a pipeline
`Update()` — with no local handler but inside the whole-main
`try { ... } catch (int) ... catch (...)` skeleton of the clipp-based
programs: a toolkit exception reaches `catch (...)`, which prints an
"Unhandled exception" line and returns `EXIT_FAILURE`. -/
def metadataProbe (site : String) (throws : Bool) (rest : Run) : Run :=
  if throws then ⟨[.info site, .diag "Unhandled exception"], .code 1⟩
  else Run.prepend [.info site] rest

/-- A toolkit metadata probe wrapped in its own
try/catch-print-fail (`split_channels.cpp`, lines 292-303). -/
def guardedProbe (site : String) (throws : Bool) (rest : Run) : Run :=
  if throws then ⟨[.info site, .excDesc site], .code 1⟩
  else Run.prepend [.info site] rest

/-- A toolkit metadata probe with no handler and no enclosing try at
all (`step_wedge_denoise.cxx`, line 71): a thrown exception escapes
`main`. -/
def probeNoTry (site : String) (throws : Bool) (rest : Run) : Run :=
  if throws then ⟨[.info site], .aborted⟩
  else Run.prepend [.info site] rest

/-- The high-priority CLI switches shared by the clipp-based programs. -/
structure CliFlags where
  unsupported : Bool
  showHelp : Bool
  printUsage : Bool
  showVersion : Bool

/-- The shared switch-handling prologue: unsupported options fail,
help/usage/version succeed immediately, otherwise continue. -/
def cliPrologue (f : CliFlags) (rest : Run) : Run :=
  if f.unsupported then failDiag "Unsupported options"
  else if f.showHelp then okInfo "help"
  else if f.printUsage then okInfo "usage"
  else if f.showVersion then okInfo "version"
  else rest

/-- Outcomes of the five input-file tests of the shared validation
block. -/
structure FileChecks where
  argEmpty : Bool
  fileExists : Bool
  isRegular : Bool
  sizeZero : Bool
  opensOk : Bool

/-- The shared input-file validation block, exactly in source order:
empty argument, `fs::exists`, `fs::is_regular_file`,
`fs::file_size == 0`, `ifstream::is_open`. -/
def validateInputFile (c : FileChecks) (rest : Run) : Run :=
  if c.argEmpty then failDiag "usage"
  else if ¬ c.fileExists then failDiag "File does not exist"
  else if ¬ c.isRegular then failDiag "Not a regular file"
  else if c.sizeZero then failDiag "Empty file"
  else if ¬ c.opensOk then failDiag "Error opening file"
  else rest

/-- The same block without the readability test, as in
`shift_epid.cxx` (lines 266-303), which omits the `ifstream` probe. -/
def validateInputFileNoOpen (c : FileChecks) (rest : Run) : Run :=
  if c.argEmpty then failDiag "usage"
  else if ¬ c.fileExists then failDiag "File does not exist"
  else if ¬ c.isRegular then failDiag "Not a regular file"
  else if c.sizeZero then failDiag "Empty file"
  else rest

/-- Modelled from the spec's words for claim C6: the first violated
condition of the ordered check list (argument non-empty, file exists,
is a regular file, is non-empty, is readable), with the diagnostic the
programs print for it. -/
def firstFailedCheck (c : FileChecks) : Option String :=
  if c.argEmpty then some "usage"
  else if ¬ c.fileExists then some "File does not exist"
  else if ¬ c.isRegular then some "Not a regular file"
  else if c.sizeZero then some "Empty file"
  else if ¬ c.opensOk then some "Error opening file"
  else none

/-! ### The fourteen `main` functions

Each program's `main` is a function of the outcomes of its own
environment-dependent branch conditions, passed as explicit arguments
in the order the source consults them: the CLI switches, the
filesystem-test results, and whether each toolkit call throws. -/

/-! ### `app.cpp` -/

/-- Control flow of `main` in `app.cpp`: prologue, the five-step input
validation, CSV probe (guarded, prints and fails), libsodium probe,
SQLite probe. -/
def appMain (flags : CliFlags) (checks : FileChecks)
    (csvThrows sodiumFails sqliteFails : Bool) : Run :=
  cliPrologue flags <|
  validateInputFile checks <|
  Run.prepend [.info "File opened successfully"] <|
  if csvThrows then failDiag "not a CSV file"
  else if sodiumFails then failDiag "Error initializing libsodium library"
  else if sqliteFails then failDiag "Error creating DB"
  else ⟨[.info "Libsodium library initialized",
         .info "Database opened successfully"], .code 0⟩

/-! ### `create_image.cpp` -/

/-- Control flow of `main` in `create_image.cpp`: prologue, then the
writer pipeline call wrapped in try/catch. -/
def createImageMain (flags : CliFlags) (writerThrows : Bool) : Run :=
  cliPrologue flags <|
  guardedUpdate "writer.Update" writerThrows ⟨[], .code 0⟩

/-! ### `create_image_from_buffer.cxx` -/

/-- Control flow of `main` in `create_image_from_buffer.cxx`: prologue,
the `width/height >= 10` check (lines 404-412), then the guarded writer
call. -/
def createImageFromBufferMain (flags : CliFlags) (width height : ℤ)
    (writerThrows : Bool) : Run :=
  cliPrologue flags <|
  if width < 10 ∨ height < 10 then
    failDiag "width and height must be >= 10"
  else guardedUpdate "writer.Update" writerThrows ⟨[], .code 0⟩

/-! ### `create_step_wedge.cxx` (`main`, lines 146-294) -/

/-- Control flow of `main` in `create_step_wedge.cxx`: prologue, the
in-memory synthesis (`create_step_wedge`, no failure branch), then the
guarded writer call. -/
def createStepWedgeMain (flags : CliFlags) (writerThrows : Bool) : Run :=
  cliPrologue flags <|
  Run.prepend [.info "create_step_wedge"] <|
  guardedUpdate "writer.Update" writerThrows ⟨[], .code 0⟩

/-! ### `image_affine_transform.cpp` -/

/-- Control flow of `main` in `image_affine_transform.cpp`: prologue,
five-step validation, output-exists check, guarded `itk::ReadImage`,
guarded writer call. -/
def imageAffineMain (flags : CliFlags) (checks : FileChecks)
    (outputExists readThrows writerThrows : Bool) : Run :=
  cliPrologue flags <|
  validateInputFile checks <|
  if outputExists then failDiag "Output file already exists"
  else
  guardedUpdate "ReadImage" readThrows <|
  guardedUpdate "writer.Update" writerThrows ⟨[], .code 0⟩

/-! ### `image_registration.cxx` -/

/-- Control flow of `main` in `image_registration.cxx`: prologue, the
five-step validation and TIFF-format checks for the fixed image, the
same for the moving image, the output-exists check, then eleven guarded
pipeline calls. -/
def imageRegistrationMain (flags : CliFlags)
    (fixedChecks : FileChecks)
    (fixedCanRead fixedInfoThrows fixedUncompressed fixedRgb fixedBits16 : Bool)
    (movingChecks : FileChecks)
    (movingCanRead movingInfoThrows movingUncompressed movingRgb movingBits16 : Bool)
    (overwrite outputExists : Bool)
    (fixedImageUpdThrows movingImageUpdThrows fixedLumUpdThrows
     movingLumUpdThrows rgbW1Throws rgbW2Throws monoW1Throws monoW2Throws
     registrationThrows rgbW3Throws rgbW4Throws : Bool) : Run :=
  cliPrologue flags <|
  validateInputFile fixedChecks <|
  if ¬ fixedCanRead then failDiag "Unsupported image format"
  else
  metadataProbe "fixed.ReadImageInformation" fixedInfoThrows <|
  if ¬ fixedUncompressed then failDiag "File is compressed"
  else if ¬ fixedRgb then failDiag "File is not an RGB image"
  else if ¬ fixedBits16 then failDiag "File is not a 16-bit image"
  else
  validateInputFile movingChecks <|
  if ¬ movingCanRead then failDiag "Unsupported image format"
  else
  metadataProbe "moving.ReadImageInformation" movingInfoThrows <|
  if ¬ movingUncompressed then failDiag "File is compressed"
  else if ¬ movingRgb then failDiag "File is not an RGB image"
  else if ¬ movingBits16 then failDiag "File is not a 16-bit image"
  else if ¬ overwrite ∧ outputExists then failDiag "Output file already exists"
  else
  guardedUpdate "fixed_image.Update" fixedImageUpdThrows <|
  guardedUpdate "moving_image.Update" movingImageUpdThrows <|
  guardedUpdate "fixed_luminance.Update" fixedLumUpdThrows <|
  guardedUpdate "moving_luminance.Update" movingLumUpdThrows <|
  guardedUpdate "rgb_writer.Update#1" rgbW1Throws <|
  guardedUpdate "rgb_writer.Update#2" rgbW2Throws <|
  guardedUpdate "mono_writer.Update#1" monoW1Throws <|
  guardedUpdate "mono_writer.Update#2" monoW2Throws <|
  guardedUpdate "registration.Update" registrationThrows <|
  Run.prepend [.info "registration results"] <|
  guardedUpdate "rgb_writer.Update#3" rgbW3Throws <|
  guardedUpdate "rgb_writer.Update#4" rgbW4Throws ⟨[], .code 0⟩

/-! ### `rectangle_to_image.cxx` -/

/-- Control flow of `main` in `rectangle_to_image.cxx`:
`polygon->Update()` (line 59) and `imageFilter->Update()` (line 74)
have no try/catch at all; only the final writer call (lines 114-122)
is guarded. -/
def rectangleToImageMain
    (polygonUpdThrows imageFilterUpdThrows writerThrows : Bool) : Run :=
  unguardedUpdate "polygon.Update" polygonUpdThrows <|
  Run.prepend [.info "polygon measurements"] <|
  unguardedUpdate "imageFilter.Update" imageFilterUpdThrows <|
  Run.prepend [.info "image region"] <|
  guardedUpdate "writer.Update" writerThrows ⟨[], .code 0⟩

/-! ### `rgb_to_luminance.cxx` -/

/-- Control flow of `main` in `rgb_to_luminance.cxx`: prologue,
five-step validation, output-exists check, TIFF probe,
`ReadImageInformation` (no local handler, but inside the skeleton try),
format checks, then the guarded writer call. -/
def rgbToLuminanceMain (flags : CliFlags) (checks : FileChecks)
    (overwrite outputExists canRead infoThrows uncompressed rgb bits16
     writerThrows : Bool) : Run :=
  cliPrologue flags <|
  validateInputFile checks <|
  if ¬ overwrite ∧ outputExists then failDiag "Output file already exists"
  else if ¬ canRead then failDiag "File is not a regular TIFF image"
  else
  metadataProbe "ReadImageInformation" infoThrows <|
  if ¬ uncompressed then failDiag "File is compressed"
  else if ¬ rgb then failDiag "File is not an RGB image"
  else if ¬ bits16 then failDiag "File is not a 16-bit image"
  else guardedUpdate "writer.Update" writerThrows ⟨[], .code 0⟩

/-! ### `shift_epid.cxx` -/

/-- Control flow of `main` in `shift_epid.cxx`: prologue, four-step
validation (the readability probe is absent), DICOM probe, shift-limit
checks, then three guarded pipeline calls. -/
def shiftEpidMain (flags : CliFlags) (checks : FileChecks) (canRead : Bool)
    (xShift yShift : ℚ)
    (readerThrows resamplerThrows writerThrows : Bool) : Run :=
  cliPrologue flags <|
  validateInputFileNoOpen checks <|
  if ¬ canRead then failDiag "Not a valid DICOM file"
  else if 200 < |xShift| then failDiag "X shift out of limits"
  else if 200 < |yShift| then failDiag "Y shift out of limits"
  else
  guardedUpdate "reader.Update" readerThrows <|
  Run.prepend [.info "image info"] <|
  guardedUpdate "resampler.Update" resamplerThrows <|
  guardedUpdate "writer.Update" writerThrows ⟨[], .code 0⟩

/-! ### `shifts_calculator.cxx` -/

/-- Control flow of `main` in `shifts_calculator.cxx`: only an argument
count check, then the pipeline; `filter->Update()` (line 145),
`flipFilter->Update()` (line 187) and the second
`calculator2->Compute()` (line 229) have no try/catch. -/
def shiftsCalculatorMain
    (argPresent readerThrows tagFound entryIsString filterThrows
     calc1Throws write1Throws flipThrows calc2Throws calc2SecondThrows
     write2Throws : Bool) : Run :=
  if ¬ argPresent then failDiag "Usage"
  else
  guardedUpdate "reader.Update" readerThrows <|
  Run.prepend [.info "DICOM tags"] <|
  if ¬ tagFound then failDiag "Tag not found in the DICOM header"
  else if ¬ entryIsString then failDiag "Entry was not of string type"
  else
  unguardedUpdate "filter.Update" filterThrows <|
  guardedUpdate "calculator1.Compute" calc1Throws <|
  guardedUpdate "WriteImage#1" write1Throws <|
  unguardedUpdate "flipFilter.Update" flipThrows <|
  guardedUpdate "calculator2.Compute" calc2Throws <|
  unguardedUpdate "calculator2.Compute#2" calc2SecondThrows <|
  guardedUpdate "WriteImage#2" write2Throws ⟨[], .code 0⟩

/-! ### `split_channels.cpp` -/

/-- Control flow of `main` in `split_channels.cpp`: prologue, five-step
validation, output-exists check, guarded `ReadImageInformation`, then
informational prints. -/
def splitChannelsCppMain (flags : CliFlags) (checks : FileChecks)
    (outputExists infoThrows : Bool) : Run :=
  cliPrologue flags <|
  validateInputFile checks <|
  if outputExists then failDiag "Output file already exists"
  else
  guardedProbe "ReadImageInformation" infoThrows <|
  ⟨[.info "image info"], .code 0⟩

/-! ### `split_channels.cxx` -/

/-- A per-channel writer call executed only when the channel was
selected. -/
def condGuarded (want : Bool) (site : String) (throws : Bool) (rest : Run) : Run :=
  if want then guardedUpdate site throws rest else rest

/-- Control flow of `main` in `split_channels.cxx`: prologue, channel
validation (before the input-file checks), five-step validation,
per-channel output-exists checks, TIFF probe and format checks, then up
to three guarded per-channel writer calls. -/
def splitChannelsCxxMain (flags : CliFlags)
    (channelValid wantR wantG wantB : Bool) (checks : FileChecks)
    (overwrite existsR existsG existsB canRead infoThrows uncompressed
     rgb bits16 writeRThrows writeGThrows writeBThrows : Bool) : Run :=
  cliPrologue flags <|
  if ¬ channelValid then failDiag "Invalid color channel value"
  else
  validateInputFile checks <|
  if wantR ∧ ¬ overwrite ∧ existsR then failDiag "Output file already exists (R)"
  else if wantG ∧ ¬ overwrite ∧ existsG then failDiag "Output file already exists (G)"
  else if wantB ∧ ¬ overwrite ∧ existsB then failDiag "Output file already exists (B)"
  else if ¬ canRead then failDiag "File is not a regular TIFF image"
  else
  metadataProbe "ReadImageInformation" infoThrows <|
  if ¬ uncompressed then failDiag "File is compressed"
  else if ¬ rgb then failDiag "File is not an RGB image"
  else if ¬ bits16 then failDiag "File is not a 16-bit image"
  else
  condGuarded wantR "red_writer.Update" writeRThrows <|
  condGuarded wantG "green_writer.Update" writeGThrows <|
  condGuarded wantB "blue_writer.Update" writeBThrows ⟨[], .code 0⟩

/-! ### `stat_demo.cpp` -/

/-- Control flow of `main` in `stat_demo.cpp`: prologue, then the two
integrality checks `(int)floor(v) != (int)ceil(v)` (lines 217-237), then
the sampling and statistics phases.  Non-integral `float` values always
have magnitude below `2^23`, where the `(int)` casts are exact, so the
checks are modelled as `⌊v⌋ ≠ ⌈v⌉` over the exact value. -/
def statDemoMain (flags : CliFlags) (meanValue stddevValue : ℚ) : Run :=
  cliPrologue flags <|
  if ⌊meanValue⌋ ≠ ⌈meanValue⌉ then
    failDiag "Mean value must be an integer"
  else if ⌊stddevValue⌋ ≠ ⌈stddevValue⌉ then
    failDiag "Standard deviation value must be an integer"
  else ⟨[.info "sampling", .info "statistics"], .code 0⟩

/-! ### `step_wedge_denoise.cxx` -/

/-- Control flow of `main` in `step_wedge_denoise.cxx`: only an
argument-count check of the CLI input, TIFF probe and format checks
(`ReadImageInformation` has no handler and no enclosing try), then the
writer call whose catch prints the description but then throws an `int`
that escapes `main`. -/
def stepWedgeDenoiseMain
    (argPresent canRead infoThrows uncompressed rgb bits16
     writerThrows : Bool) : Run :=
  if ¬ argPresent then failDiag "Usage"
  else if ¬ canRead then failDiag "File is not a regular TIFF image"
  else
  probeNoTry "ReadImageInformation" infoThrows <|
  if ¬ uncompressed then failDiag "File is compressed"
  else if ¬ rgb then failDiag "File is not an RGB image"
  else if ¬ bits16 then failDiag "File is not a 16-bit image"
  else guardedUpdateThenAbort "red_writer.Update" writerThrows ⟨[], .code 0⟩

/-! ## Exit-code discipline

`exitOk r` says: whatever exit code the run returns, it is 0 or 1.
Runs that abort return no exit code and satisfy it vacuously. -/

/-- Every exit code actually returned is `EXIT_SUCCESS` or
`EXIT_FAILURE`. -/
def exitOk (r : Run) : Prop :=
  ∀ n, r.exit = ExitStatus.code n → n = 0 ∨ n = 1

theorem exitOk_mk0 (es : List Ev) : exitOk ⟨es, .code 0⟩ := by
  intro n h
  simp only [ExitStatus.code.injEq] at h
  omega

theorem exitOk_mk1 (es : List Ev) : exitOk ⟨es, .code 1⟩ := by
  intro n h
  simp only [ExitStatus.code.injEq] at h
  omega

theorem exitOk_mkAborted (es : List Ev) : exitOk ⟨es, .aborted⟩ := by
  intro n h
  simp at h

theorem exitOk_failDiag (msg : String) : exitOk (failDiag msg) := exitOk_mk1 _

theorem exitOk_okInfo (msg : String) : exitOk (okInfo msg) := exitOk_mk0 _

theorem exitOk_ite (c : Prop) [Decidable c] {a b : Run}
    (ha : exitOk a) (hb : exitOk b) : exitOk (if c then a else b) := by
  by_cases h : c <;> simp [h, ha, hb]

theorem exitOk_prepend (es : List Ev) {r : Run} (h : exitOk r) :
    exitOk (Run.prepend es r) := h

theorem exitOk_guardedUpdate (site : String) (t : Bool) {rest : Run}
    (h : exitOk rest) : exitOk (guardedUpdate site t rest) :=
  exitOk_ite _ (exitOk_mk1 _) (exitOk_prepend _ h)

theorem exitOk_unguardedUpdate (site : String) (t : Bool) {rest : Run}
    (h : exitOk rest) : exitOk (unguardedUpdate site t rest) :=
  exitOk_ite _ (exitOk_mkAborted _) (exitOk_prepend _ h)

theorem exitOk_guardedUpdateThenAbort (site : String) (t : Bool) {rest : Run}
    (h : exitOk rest) : exitOk (guardedUpdateThenAbort site t rest) :=
  exitOk_ite _ (exitOk_mkAborted _) (exitOk_prepend _ h)

theorem exitOk_metadataProbe (site : String) (t : Bool) {rest : Run}
    (h : exitOk rest) : exitOk (metadataProbe site t rest) :=
  exitOk_ite _ (exitOk_mk1 _) (exitOk_prepend _ h)

theorem exitOk_guardedProbe (site : String) (t : Bool) {rest : Run}
    (h : exitOk rest) : exitOk (guardedProbe site t rest) :=
  exitOk_ite _ (exitOk_mk1 _) (exitOk_prepend _ h)

theorem exitOk_probeNoTry (site : String) (t : Bool) {rest : Run}
    (h : exitOk rest) : exitOk (probeNoTry site t rest) :=
  exitOk_ite _ (exitOk_mkAborted _) (exitOk_prepend _ h)

theorem exitOk_condGuarded (w : Bool) (site : String) (t : Bool) {rest : Run}
    (h : exitOk rest) : exitOk (condGuarded w site t rest) :=
  exitOk_ite _ (exitOk_guardedUpdate _ _ h) h

theorem exitOk_cliPrologue (f : CliFlags) {rest : Run} (h : exitOk rest) :
    exitOk (cliPrologue f rest) :=
  exitOk_ite _ (exitOk_failDiag _) <| exitOk_ite _ (exitOk_okInfo _) <|
    exitOk_ite _ (exitOk_okInfo _) <| exitOk_ite _ (exitOk_okInfo _) h

theorem exitOk_validateInputFile (c : FileChecks) {rest : Run} (h : exitOk rest) :
    exitOk (validateInputFile c rest) :=
  exitOk_ite _ (exitOk_failDiag _) <| exitOk_ite _ (exitOk_failDiag _) <|
    exitOk_ite _ (exitOk_failDiag _) <| exitOk_ite _ (exitOk_failDiag _) <|
      exitOk_ite _ (exitOk_failDiag _) h

theorem exitOk_validateInputFileNoOpen (c : FileChecks) {rest : Run} (h : exitOk rest) :
    exitOk (validateInputFileNoOpen c rest) :=
  exitOk_ite _ (exitOk_failDiag _) <| exitOk_ite _ (exitOk_failDiag _) <|
    exitOk_ite _ (exitOk_failDiag _) <| exitOk_ite _ (exitOk_failDiag _) h

/-! ## Per-site exception-handling properties (claim C5)

`sitePF site r` : if the run invoked the pipeline operation `site`,
then it printed that operation's exception description and returned
exit code 1 — the property the spec asserts of a wrapped `Update()`
whenever the call throws.  `siteAS site r` : the run aborted and
printed no description (an unguarded call that threw).  `sitePA site r`
: the run printed the description but then aborted.  These are proved
compositionally over the run combinators. -/

def sitePF (site : String) (r : Run) : Prop :=
  Ev.pipelineOp site ∈ r.events → Ev.excDesc site ∈ r.events ∧ r.exit = .code 1

def siteAS (site : String) (r : Run) : Prop :=
  Ev.pipelineOp site ∈ r.events → r.exit = .aborted ∧ Ev.excDesc site ∉ r.events

def sitePA (site : String) (r : Run) : Prop :=
  Ev.pipelineOp site ∈ r.events → Ev.excDesc site ∈ r.events ∧ r.exit = .aborted

theorem sitePF_of_not_mem {site : String} {r : Run}
    (h : Ev.pipelineOp site ∉ r.events) : sitePF site r :=
  fun hm => absurd hm h

theorem siteAS_of_not_mem {site : String} {r : Run}
    (h : Ev.pipelineOp site ∉ r.events) : siteAS site r :=
  fun hm => absurd hm h

theorem sitePA_of_not_mem {site : String} {r : Run}
    (h : Ev.pipelineOp site ∉ r.events) : sitePA site r :=
  fun hm => absurd hm h

theorem sitePF_ite (site : String) (c : Prop) [Decidable c] {a b : Run}
    (ha : sitePF site a) (hb : sitePF site b) : sitePF site (if c then a else b) := by
  by_cases h : c
  · rwa [if_pos h]
  · rwa [if_neg h]

theorem siteAS_ite (site : String) (c : Prop) [Decidable c] {a b : Run}
    (ha : siteAS site a) (hb : siteAS site b) : siteAS site (if c then a else b) := by
  by_cases h : c
  · rwa [if_pos h]
  · rwa [if_neg h]

theorem sitePA_ite (site : String) (c : Prop) [Decidable c] {a b : Run}
    (ha : sitePA site a) (hb : sitePA site b) : sitePA site (if c then a else b) := by
  by_cases h : c
  · rwa [if_pos h]
  · rwa [if_neg h]

theorem sitePF_prepend (site : String) (es : List Ev) {r : Run}
    (hes : Ev.pipelineOp site ∉ es) (h : sitePF site r) :
    sitePF site (Run.prepend es r) := by
  intro hm
  rcases List.mem_append.mp hm with h1 | h1
  · exact absurd h1 hes
  · obtain ⟨hd, he⟩ := h h1
    exact ⟨List.mem_append.mpr (Or.inr hd), he⟩

theorem siteAS_prepend (site : String) (es : List Ev) {r : Run}
    (hes : Ev.pipelineOp site ∉ es) (hes2 : Ev.excDesc site ∉ es)
    (h : siteAS site r) : siteAS site (Run.prepend es r) := by
  intro hm
  rcases List.mem_append.mp hm with h1 | h1
  · exact absurd h1 hes
  · obtain ⟨he, hd⟩ := h h1
    refine ⟨he, fun hc => ?_⟩
    rcases List.mem_append.mp hc with h2 | h2
    · exact hes2 h2
    · exact hd h2

theorem sitePA_prepend (site : String) (es : List Ev) {r : Run}
    (hes : Ev.pipelineOp site ∉ es) (h : sitePA site r) :
    sitePA site (Run.prepend es r) := by
  intro hm
  rcases List.mem_append.mp hm with h1 | h1
  · exact absurd h1 hes
  · obtain ⟨hd, he⟩ := h h1
    exact ⟨List.mem_append.mpr (Or.inr hd), he⟩

theorem sitePF_failDiag (site msg : String) : sitePF site (failDiag msg) :=
  sitePF_of_not_mem (by simp [failDiag])

theorem sitePF_okInfo (site msg : String) : sitePF site (okInfo msg) :=
  sitePF_of_not_mem (by simp [okInfo])

theorem siteAS_failDiag (site msg : String) : siteAS site (failDiag msg) :=
  siteAS_of_not_mem (by simp [failDiag])

theorem siteAS_okInfo (site msg : String) : siteAS site (okInfo msg) :=
  siteAS_of_not_mem (by simp [okInfo])

theorem sitePA_failDiag (site msg : String) : sitePA site (failDiag msg) :=
  sitePA_of_not_mem (by simp [failDiag])

theorem sitePF_guardedUpdate_self (site : String) (rest : Run) :
    sitePF site (guardedUpdate site true rest) := by
  intro _
  simp [guardedUpdate]

theorem sitePF_guardedUpdate_other (site s : String) (t : Bool) {rest : Run}
    (h : sitePF site rest) (hne : s ≠ site) :
    sitePF site (guardedUpdate s t rest) := by
  cases t
  · exact sitePF_prepend site _ (by simp [hne.symm]) h
  · apply sitePF_of_not_mem
    simp [guardedUpdate, hne.symm]

theorem sitePF_unguardedUpdate_other (site s : String) (t : Bool) {rest : Run}
    (h : sitePF site rest) (hne : s ≠ site) :
    sitePF site (unguardedUpdate s t rest) := by
  cases t
  · exact sitePF_prepend site _ (by simp [hne.symm]) h
  · apply sitePF_of_not_mem
    simp [unguardedUpdate, hne.symm]

theorem siteAS_unguardedUpdate_self (site : String) (rest : Run) :
    siteAS site (unguardedUpdate site true rest) := by
  intro _
  simp [unguardedUpdate]

theorem siteAS_guardedUpdate_other (site s : String) (t : Bool) {rest : Run}
    (h : siteAS site rest) (hne : s ≠ site) :
    siteAS site (guardedUpdate s t rest) := by
  cases t
  · exact siteAS_prepend site _ (by simp [hne.symm]) (by simp) h
  · apply siteAS_of_not_mem
    simp [guardedUpdate, hne.symm]

theorem siteAS_unguardedUpdate_other (site s : String) (t : Bool) {rest : Run}
    (h : siteAS site rest) (hne : s ≠ site) :
    siteAS site (unguardedUpdate s t rest) := by
  cases t
  · exact siteAS_prepend site _ (by simp [hne.symm]) (by simp) h
  · apply siteAS_of_not_mem
    simp [unguardedUpdate, hne.symm]

theorem sitePA_guardedUpdateThenAbort_self (site : String) (rest : Run) :
    sitePA site (guardedUpdateThenAbort site true rest) := by
  intro _
  simp [guardedUpdateThenAbort]

theorem sitePF_metadataProbe (site s : String) (t : Bool) {rest : Run}
    (h : sitePF site rest) : sitePF site (metadataProbe s t rest) := by
  cases t
  · exact sitePF_prepend site _ (by simp) h
  · apply sitePF_of_not_mem
    simp [metadataProbe]

theorem sitePF_guardedProbe (site s : String) (t : Bool) {rest : Run}
    (h : sitePF site rest) : sitePF site (guardedProbe s t rest) := by
  cases t
  · exact sitePF_prepend site _ (by simp) h
  · apply sitePF_of_not_mem
    simp [guardedProbe]

theorem sitePA_probeNoTry (site s : String) (t : Bool) {rest : Run}
    (h : sitePA site rest) : sitePA site (probeNoTry s t rest) := by
  cases t
  · exact sitePA_prepend site _ (by simp) h
  · apply sitePA_of_not_mem
    simp [probeNoTry]

theorem sitePF_condGuarded_self (site : String) (w : Bool) {rest : Run}
    (h : sitePF site rest) : sitePF site (condGuarded w site true rest) := by
  cases w
  · exact h
  · exact sitePF_guardedUpdate_self site rest

theorem sitePF_condGuarded_other (site s : String) (w t : Bool) {rest : Run}
    (h : sitePF site rest) (hne : s ≠ site) :
    sitePF site (condGuarded w s t rest) := by
  cases w
  · exact h
  · exact sitePF_guardedUpdate_other site s t h hne

theorem sitePF_cliPrologue (site : String) (f : CliFlags) {rest : Run}
    (h : sitePF site rest) : sitePF site (cliPrologue f rest) :=
  sitePF_ite _ _ (sitePF_failDiag _ _) <| sitePF_ite _ _ (sitePF_okInfo _ _) <|
    sitePF_ite _ _ (sitePF_okInfo _ _) <| sitePF_ite _ _ (sitePF_okInfo _ _) h

theorem sitePF_validateInputFile (site : String) (c : FileChecks) {rest : Run}
    (h : sitePF site rest) : sitePF site (validateInputFile c rest) :=
  sitePF_ite _ _ (sitePF_failDiag _ _) <| sitePF_ite _ _ (sitePF_failDiag _ _) <|
    sitePF_ite _ _ (sitePF_failDiag _ _) <| sitePF_ite _ _ (sitePF_failDiag _ _) <|
      sitePF_ite _ _ (sitePF_failDiag _ _) h

theorem sitePF_validateInputFileNoOpen (site : String) (c : FileChecks) {rest : Run}
    (h : sitePF site rest) : sitePF site (validateInputFileNoOpen c rest) :=
  sitePF_ite _ _ (sitePF_failDiag _ _) <| sitePF_ite _ _ (sitePF_failDiag _ _) <|
    sitePF_ite _ _ (sitePF_failDiag _ _) <| sitePF_ite _ _ (sitePF_failDiag _ _) h

theorem sitePF_tail0 (site : String) : sitePF site ⟨[], .code 0⟩ :=
  sitePF_of_not_mem (by simp)

theorem siteAS_tail0 (site : String) : siteAS site ⟨[], .code 0⟩ :=
  siteAS_of_not_mem (by simp)

theorem sitePA_tail0 (site : String) : sitePA site ⟨[], .code 0⟩ :=
  sitePA_of_not_mem (by simp)

/-! ## The density array of `create_step_wedge.cxx`'s `main` (lines 246-249) -/

/-- The 21 optical densities hard-coded in `main`; indices above 20 are
never read. -/
noncomputable def demoDensities : ℕ → ℝ
  | 0 => 0.04 | 1 => 0.20 | 2 => 0.35 | 3 => 0.51 | 4 => 0.65
  | 5 => 0.80 | 6 => 0.94 | 7 => 1.11 | 8 => 1.27 | 9 => 1.43
  | 10 => 1.59 | 11 => 1.73 | 12 => 1.88 | 13 => 2.02 | 14 => 2.18
  | 15 => 2.32 | 16 => 2.49 | 17 => 2.64 | 18 => 2.79 | 19 => 2.91
  | 20 => 3.08 | _ => 0

/-! ## Claim C1 -/

/-- For `d = -1` the un-rounded pixel value exceeds 65535: the exponent
is at least 12 and `e^12 > 63396`. -/
theorem stepPixelRounded_neg_one_large : 65536 ≤ stepPixelRounded (-1) := by
  have hx : (12 : ℝ) ≤ -((-1 : ℝ) - 6.966) / 0.63 := by norm_num
  have h1 : Real.exp 12 ≤ Real.exp (-((-1 : ℝ) - 6.966) / 0.63) :=
    Real.exp_le_exp.mpr hx
  have h2 : (2.7182818283 : ℝ) ^ (12 : ℕ) ≤ Real.exp 1 ^ (12 : ℕ) :=
    pow_le_pow_left (by norm_num) (le_of_lt Real.exp_one_gt_d9) 12
  have h3 : Real.exp 1 ^ (12 : ℕ) = Real.exp 12 := by
    rw [Real.exp_one_pow]
    norm_num
  have h4 : (63396 : ℝ) ≤ (2.7182818283 : ℝ) ^ (12 : ℕ) := by norm_num
  have h5 : ((65536 : ℤ) : ℝ) ≤ stepPixelReal (-1) := by
    unfold stepPixelReal
    push_cast
    nlinarith
  have h6 := round_le_round h5
  rwa [round_intCast] at h6

/-- C1, counterexample: the claim says the stored intensity is the
rounded value saturated to `[0, 65535]`; but at density `-1` the
rounded value exceeds 65535 and the `static_cast<uint16_t>` narrowing
is undefined behaviour (modelled `none`), not the saturated value
65535. -/
theorem C1_counterexample :
    stepRGB (-1) = ⟨none, none, none⟩ ∧ specSaturatedValue (-1) = 65535 := by
  have h := stepPixelRounded_neg_one_large
  constructor
  · have hc : stepPixelValue (-1) = none := u16cast_of_gt (by omega)
    simp [stepRGB, hc]
  · unfold specSaturatedValue
    rw [min_eq_left (by omega), max_eq_right (by norm_num)]

/-- C1 (amended): for every density whose rounded pixel value
`round(2140 + exp(-(d - 6.966)/0.63))` does not exceed 65535 — in
particular every density of the program's array — the pixel written for
that step's band carries exactly that value in all three RGB
components, and it coincides with the value saturated to `[0, 65535]`
(the lower bound can never bind because the value is at least 2140).
Above 65535 the narrowing conversion is undefined behaviour, not
saturation. -/
theorem C1_step_pixel_value (d : ℝ) (h : stepPixelRounded d ≤ 65535) :
    stepRGB d = ⟨some (stepPixelRounded d), some (stepPixelRounded d),
      some (stepPixelRounded d)⟩ ∧
    specSaturatedValue d = stepPixelRounded d := by
  have h0 : 0 ≤ stepPixelRounded d :=
    le_trans (by norm_num) (stepPixelRounded_ge d)
  constructor
  · have hc : stepPixelValue d = some (stepPixelRounded d) := u16cast_of_mem h0 h
    simp [stepRGB, hc]
  · unfold specSaturatedValue
    rw [min_eq_right h, max_eq_right h0]

/-- At the density `6.966` the exponential is `exp 0 = 1`, so the
rounded pixel value is exactly 2141. -/
theorem stepPixelRounded_center : stepPixelRounded (6.966 : ℝ) = 2141 := by
  unfold stepPixelRounded stepPixelReal
  rw [show -((6.966 : ℝ) - 6.966) / 0.63 = 0 by norm_num, Real.exp_zero,
    show (2140.00 : ℝ) + 1 = ((2141 : ℤ) : ℝ) by norm_num, round_intCast]

/-- C1 witness: the amended statement instantiated at density 6.966,
whose pixel value is 2141. -/
theorem C1_witness :
    stepPixelRounded (6.966 : ℝ) ≤ 65535 ∧
    stepRGB (6.966 : ℝ) = ⟨some 2141, some 2141, some 2141⟩ ∧
    specSaturatedValue (6.966 : ℝ) = 2141 := by
  have hr := stepPixelRounded_center
  have h : stepPixelRounded (6.966 : ℝ) ≤ 65535 := by rw [hr]; norm_num
  obtain ⟨h1, h2⟩ := C1_step_pixel_value (6.966 : ℝ) h
  refine ⟨h, ?_, ?_⟩
  · rw [h1, hr]
  · rw [h2, hr]

/-! ## Claim C2 -/

/-- The vertical pixel extent of the visible band of step `k ≥ 1`: the
painted extent of step `k` minus the extent over-painted by step
`k - 1`. -/
def stepBandHeight (dpi : ℕ) (k : ℕ) : ℤ :=
  stepHeight dpi k - stepHeight dpi (k - 1)

/-- C2: for every dpi, the visible band heights of steps 1..20 plus the
first step's height `round(0.59*dpi)` sum to the step wedge's total
height `round(5.00*dpi)` — exactly, hence within the claimed ±1 pixel:
the sum telescopes. -/
theorem C2_band_heights_sum (dpi : ℕ) :
    (∑ k in Finset.Icc 1 20, stepBandHeight dpi k) + stepHeight dpi 0
      = stepWedgeSizeY dpi := by
  have h : (∑ k in Finset.Icc 1 20, stepBandHeight dpi k)
      = ∑ i in Finset.range 20, (stepHeight dpi (i + 1) - stepHeight dpi i) := by
    rw [← Nat.Ico_succ_right, Finset.sum_Ico_eq_sum_range]
    apply Finset.sum_congr rfl
    intro i _
    unfold stepBandHeight
    have e2 : i + 1 - 1 = i := by omega
    rw [Nat.add_comm 1 i, e2]
  rw [h, Finset.sum_range_sub (fun i => stepHeight dpi i)]
  have h20 : stepHeight dpi 20 = stepWedgeSizeY dpi := by simp [stepHeight]
  omega

/-! ## Claim C3 -/

/-- C3: steps are painted back to front (20 down to 1, then 0) onto the
white-filled buffer, so at any pixel covered by two step rectangles the
value present in the returned image is the one written last: the value
of the least-indexed covering step, which is at most the lower of the
two indices. -/
theorem C3_back_to_front (od : ℕ → ℝ) (dpi : ℕ) (i j : ℕ) (p : ℤ × ℤ)
    (hij : i < j) (hj : j ≤ 20)
    (hi : inStepRect dpi i p) (hjp : inStepRect dpi j p) :
    ∃ k, k ≤ i ∧ inStepRect dpi k p ∧ (∀ m, m < k → ¬ inStepRect dpi m p) ∧
      stepWedgeImage od dpi p = stepRGB (od k) := by
  have hex : ∃ k, inStepRect dpi k p := ⟨i, hi⟩
  refine ⟨Nat.find hex, Nat.find_min' hex hi, Nat.find_spec hex,
    fun m hm => Nat.find_min hex hm, ?_⟩
  exact stepWedgeImage_eq_of_least od dpi p (Nat.find hex)
    (le_trans (Nat.find_min' hex hi) (le_trans (le_of_lt hij) hj))
    (Nat.find_spec hex) (fun m hm => Nat.find_min hex hm)

/-- C3 witness: in the 400-dpi image for the program's densities, the
pixel (100, 100) lies in the rectangles of steps 0 and 1; the value
present there is the least covering step's. -/
theorem C3_witness :
    ∃ k, k ≤ 0 ∧ inStepRect 400 k (100, 100) ∧
      (∀ m, m < k → ¬ inStepRect 400 m (100, 100)) ∧
      stepWedgeImage demoDensities 400 (100, 100) = stepRGB (demoDensities k) := by
  refine C3_back_to_front demoDensities 400 0 1 (100, 100) (by norm_num)
    (by norm_num) ?_ ?_ <;>
    norm_num [inStepRect, stepWedgeOrigin, stepWedgeSizeX, stepHeight,
      firstStepWidth, stepWidth, stepWedgeWidth, round_eq]

/-! ## Claim C4 -/

/-- C4: assuming the allocation succeeded — the uint16 narrowing of the
computed image dimensions is defined — every index the painting loops
pass to `SetPixel`, for any step and any density array, lies inside the
allocated `NumCols × NumRows` region; `create_step_wedge` itself
contains no error branch. -/
theorem C4_setpixel_in_bounds (dpi : ℕ) (rows cols : ℤ)
    (hR : u16cast (NumRows dpi) = some rows)
    (hC : u16cast (NumCols dpi) = some cols)
    (k : ℕ) (hk : k ≤ 20) (p : ℤ × ℤ) (hp : inStepRect dpi k p) :
    0 ≤ p.1 ∧ p.1 < cols ∧ 0 ≤ p.2 ∧ p.2 < rows := by
  have hRv : rows = NumRows dpi := by
    unfold u16cast at hR
    split at hR
    · exact (Option.some_injective _ hR).symm
    · exact absurd hR (by simp)
  have hCv : cols = NumCols dpi := by
    unfold u16cast at hC
    split at hC
    · exact (Option.some_injective _ hC).symm
    · exact absurd hC (by simp)
  obtain ⟨h1, h2, h3, h4⟩ := hp
  have horig := stepWedgeOrigin_nonneg dpi
  have hx := origin_add_sizeX_le_NumCols dpi
  have hy := origin_add_sizeY_le_NumRows dpi
  have hh : stepHeight dpi k ≤ stepWedgeSizeY dpi := by
    have := stepHeight_mono dpi hk (le_refl 20)
    simpa [stepHeight] using this
  subst hRv hCv
  refine ⟨le_trans horig h1, by omega, le_trans horig h3, by omega⟩

/-- C4 witness: at 400 dpi the allocation is 360 × 2160 and the pixel
(80, 80) painted for step 0 is inside it. -/
theorem C4_witness :
    0 ≤ (80 : ℤ) ∧ (80 : ℤ) < 360 ∧ 0 ≤ (80 : ℤ) ∧ (80 : ℤ) < 2160 := by
  refine C4_setpixel_in_bounds 400 2160 360 ?_ ?_ 0 (by norm_num) (80, 80) ?_
  · norm_num [u16cast, NumRows, imageHeight, stepWedgeHeight, stepWedgeWidth, round_eq]
  · norm_num [u16cast, NumCols, imageWidth, stepWedgeWidth, round_eq]
  · norm_num [inStepRect, stepWedgeOrigin, stepWedgeSizeX, stepHeight,
      firstStepWidth, stepWidth, stepWedgeWidth, round_eq]

/-! ## Claim C9 -/

/-- C9: every pixel outside the step-wedge rectangle — horizontally
outside `[round(0.2*dpi), round(0.2*dpi) + round(0.5*dpi))` or
vertically outside `[round(0.2*dpi), round(0.2*dpi) + round(5.0*dpi))`,
the painted bands' vertical extent — keeps the white fill
`(65535, 65535, 65535)`: the painting loops touch only the wedge
rectangle. -/
theorem C9_outside_white (od : ℕ → ℝ) (dpi : ℕ) (p : ℤ × ℤ)
    (h : p.1 < stepWedgeOrigin dpi ∨ stepWedgeOrigin dpi + stepWedgeSizeX dpi ≤ p.1 ∨
         p.2 < stepWedgeOrigin dpi ∨ stepWedgeOrigin dpi + stepWedgeSizeY dpi ≤ p.2) :
    stepWedgeImage od dpi p = whitePix := by
  apply stepWedgeImage_eq_white
  intro k hk hin
  obtain ⟨h1, h2, h3, h4⟩ := hin
  have hh : stepHeight dpi k ≤ stepWedgeSizeY dpi := by
    have := stepHeight_mono dpi hk (le_refl 20)
    simpa [stepHeight] using this
  rcases h with h | h | h | h
  · omega
  · omega
  · omega
  · omega

/-- C9 witness: the corner pixel (0, 0) of the 400-dpi image stays
white. -/
theorem C9_witness : stepWedgeImage demoDensities 400 (0, 0) = whitePix := by
  apply C9_outside_white demoDensities 400 (0, 0)
  left
  norm_num [stepWedgeOrigin, stepWedgeWidth, round_eq]

/-! ## Claim C5 -/

/-- C5, counterexample: `polygon->Update()` in `rectangle_to_image.cxx`
(line 59) is wrapped in no catch block at all: when it throws, the
process aborts on the uncaught exception — nothing is printed and no
failure exit code is returned. -/
theorem C5_counterexample :
    rectangleToImageMain true false false =
      ⟨[Ev.pipelineOp "polygon.Update"], ExitStatus.aborted⟩ := rfl

set_option maxHeartbeats 8000000 in
/-- C5 (amended): every toolkit pipeline `Update()` call, when it
throws, leads to the caught exception's description being printed and
the process exiting with failure — except: `polygon->Update()` and
`imageFilter->Update()` in `rectangle_to_image.cxx` and
`filter->Update()` and `flipFilter->Update()` in
`shifts_calculator.cxx` have no handler, so a thrown exception aborts
the process with nothing printed; and in `step_wedge_denoise.cxx` the
writer's catch block prints the description but then throws an `int`
that escapes `main`, aborting the process instead of returning
failure.  Each conjunct quantifies over all remaining branch outcomes
of that program, with the call in question set to throw. -/
theorem C5_update_wrapping :
    (∀ (f : CliFlags), sitePF "writer.Update" (createImageMain f true)) ∧
    (∀ (f : CliFlags) (w h : ℤ),
      sitePF "writer.Update" (createImageFromBufferMain f w h true)) ∧
    (∀ (f : CliFlags), sitePF "writer.Update" (createStepWedgeMain f true)) ∧
    (∀ (f : CliFlags) (c : FileChecks) (oe rt : Bool),
      sitePF "writer.Update" (imageAffineMain f c oe rt true)) ∧
    (∀ (f : CliFlags) (c : FileChecks) (cr it un rg b6 : Bool) (mc : FileChecks)
       (mcr mit mun mrg mb6 ov oe t1 t2 t3 t4 t5 t6 t7 t8 t9 t10 : Bool),
      sitePF "fixed_image.Update" (imageRegistrationMain f c cr it un rg b6
        mc mcr mit mun mrg mb6 ov oe true t1 t2 t3 t4 t5 t6 t7 t8 t9 t10)) ∧
    (∀ (f : CliFlags) (c : FileChecks) (cr it un rg b6 : Bool) (mc : FileChecks)
       (mcr mit mun mrg mb6 ov oe t1 t2 t3 t4 t5 t6 t7 t8 t9 t10 : Bool),
      sitePF "moving_image.Update" (imageRegistrationMain f c cr it un rg b6
        mc mcr mit mun mrg mb6 ov oe t1 true t2 t3 t4 t5 t6 t7 t8 t9 t10)) ∧
    (∀ (f : CliFlags) (c : FileChecks) (cr it un rg b6 : Bool) (mc : FileChecks)
       (mcr mit mun mrg mb6 ov oe t1 t2 t3 t4 t5 t6 t7 t8 t9 t10 : Bool),
      sitePF "fixed_luminance.Update" (imageRegistrationMain f c cr it un rg b6
        mc mcr mit mun mrg mb6 ov oe t1 t2 true t3 t4 t5 t6 t7 t8 t9 t10)) ∧
    (∀ (f : CliFlags) (c : FileChecks) (cr it un rg b6 : Bool) (mc : FileChecks)
       (mcr mit mun mrg mb6 ov oe t1 t2 t3 t4 t5 t6 t7 t8 t9 t10 : Bool),
      sitePF "moving_luminance.Update" (imageRegistrationMain f c cr it un rg b6
        mc mcr mit mun mrg mb6 ov oe t1 t2 t3 true t4 t5 t6 t7 t8 t9 t10)) ∧
    (∀ (f : CliFlags) (c : FileChecks) (cr it un rg b6 : Bool) (mc : FileChecks)
       (mcr mit mun mrg mb6 ov oe t1 t2 t3 t4 t5 t6 t7 t8 t9 t10 : Bool),
      sitePF "rgb_writer.Update#1" (imageRegistrationMain f c cr it un rg b6
        mc mcr mit mun mrg mb6 ov oe t1 t2 t3 t4 true t5 t6 t7 t8 t9 t10)) ∧
    (∀ (f : CliFlags) (c : FileChecks) (cr it un rg b6 : Bool) (mc : FileChecks)
       (mcr mit mun mrg mb6 ov oe t1 t2 t3 t4 t5 t6 t7 t8 t9 t10 : Bool),
      sitePF "rgb_writer.Update#2" (imageRegistrationMain f c cr it un rg b6
        mc mcr mit mun mrg mb6 ov oe t1 t2 t3 t4 t5 true t6 t7 t8 t9 t10)) ∧
    (∀ (f : CliFlags) (c : FileChecks) (cr it un rg b6 : Bool) (mc : FileChecks)
       (mcr mit mun mrg mb6 ov oe t1 t2 t3 t4 t5 t6 t7 t8 t9 t10 : Bool),
      sitePF "mono_writer.Update#1" (imageRegistrationMain f c cr it un rg b6
        mc mcr mit mun mrg mb6 ov oe t1 t2 t3 t4 t5 t6 true t7 t8 t9 t10)) ∧
    (∀ (f : CliFlags) (c : FileChecks) (cr it un rg b6 : Bool) (mc : FileChecks)
       (mcr mit mun mrg mb6 ov oe t1 t2 t3 t4 t5 t6 t7 t8 t9 t10 : Bool),
      sitePF "mono_writer.Update#2" (imageRegistrationMain f c cr it un rg b6
        mc mcr mit mun mrg mb6 ov oe t1 t2 t3 t4 t5 t6 t7 true t8 t9 t10)) ∧
    (∀ (f : CliFlags) (c : FileChecks) (cr it un rg b6 : Bool) (mc : FileChecks)
       (mcr mit mun mrg mb6 ov oe t1 t2 t3 t4 t5 t6 t7 t8 t9 t10 : Bool),
      sitePF "registration.Update" (imageRegistrationMain f c cr it un rg b6
        mc mcr mit mun mrg mb6 ov oe t1 t2 t3 t4 t5 t6 t7 t8 true t9 t10)) ∧
    (∀ (f : CliFlags) (c : FileChecks) (cr it un rg b6 : Bool) (mc : FileChecks)
       (mcr mit mun mrg mb6 ov oe t1 t2 t3 t4 t5 t6 t7 t8 t9 t10 : Bool),
      sitePF "rgb_writer.Update#3" (imageRegistrationMain f c cr it un rg b6
        mc mcr mit mun mrg mb6 ov oe t1 t2 t3 t4 t5 t6 t7 t8 t9 true t10)) ∧
    (∀ (f : CliFlags) (c : FileChecks) (cr it un rg b6 : Bool) (mc : FileChecks)
       (mcr mit mun mrg mb6 ov oe t1 t2 t3 t4 t5 t6 t7 t8 t9 t10 : Bool),
      sitePF "rgb_writer.Update#4" (imageRegistrationMain f c cr it un rg b6
        mc mcr mit mun mrg mb6 ov oe t1 t2 t3 t4 t5 t6 t7 t8 t9 t10 true)) ∧
    (∀ (pt ift : Bool),
      sitePF "writer.Update" (rectangleToImageMain pt ift true)) ∧
    (∀ (f : CliFlags) (c : FileChecks) (ov oe cr it un rg b6 : Bool),
      sitePF "writer.Update" (rgbToLuminanceMain f c ov oe cr it un rg b6 true)) ∧
    (∀ (f : CliFlags) (c : FileChecks) (cr : Bool) (xs ys : ℚ) (rs wt : Bool),
      sitePF "reader.Update" (shiftEpidMain f c cr xs ys true rs wt)) ∧
    (∀ (f : CliFlags) (c : FileChecks) (cr : Bool) (xs ys : ℚ) (rt wt : Bool),
      sitePF "resampler.Update" (shiftEpidMain f c cr xs ys rt true wt)) ∧
    (∀ (f : CliFlags) (c : FileChecks) (cr : Bool) (xs ys : ℚ) (rt rs : Bool),
      sitePF "writer.Update" (shiftEpidMain f c cr xs ys rt rs true)) ∧
    (∀ (ap tf eis ft c1 w1 fl c2 c2s w2 : Bool),
      sitePF "reader.Update" (shiftsCalculatorMain ap true tf eis ft c1 w1 fl c2 c2s w2)) ∧
    (∀ (f : CliFlags) (cv wr wg wb : Bool) (c : FileChecks)
       (ov eR eG eB cr it un rg b6 tG tB : Bool),
      sitePF "red_writer.Update" (splitChannelsCxxMain f cv wr wg wb c
        ov eR eG eB cr it un rg b6 true tG tB)) ∧
    (∀ (f : CliFlags) (cv wr wg wb : Bool) (c : FileChecks)
       (ov eR eG eB cr it un rg b6 tR tB : Bool),
      sitePF "green_writer.Update" (splitChannelsCxxMain f cv wr wg wb c
        ov eR eG eB cr it un rg b6 tR true tB)) ∧
    (∀ (f : CliFlags) (cv wr wg wb : Bool) (c : FileChecks)
       (ov eR eG eB cr it un rg b6 tR tG : Bool),
      sitePF "blue_writer.Update" (splitChannelsCxxMain f cv wr wg wb c
        ov eR eG eB cr it un rg b6 tR tG true)) ∧
    (∀ (ift wt : Bool),
      siteAS "polygon.Update" (rectangleToImageMain true ift wt)) ∧
    (∀ (pt wt : Bool),
      siteAS "imageFilter.Update" (rectangleToImageMain pt true wt)) ∧
    (∀ (ap rt tf eis c1 w1 fl c2 c2s w2 : Bool),
      siteAS "filter.Update" (shiftsCalculatorMain ap rt tf eis true c1 w1 fl c2 c2s w2)) ∧
    (∀ (ap rt tf eis ft c1 w1 c2 c2s w2 : Bool),
      siteAS "flipFilter.Update" (shiftsCalculatorMain ap rt tf eis ft c1 w1 true c2 c2s w2)) ∧
    (∀ (ap cr it un rg b6 : Bool),
      sitePA "red_writer.Update" (stepWedgeDenoiseMain ap cr it un rg b6 true)) := by
  refine ⟨?_, ?_, ?_, ?_, ?_, ?_, ?_, ?_, ?_, ?_, ?_, ?_, ?_, ?_, ?_, ?_, ?_,
    ?_, ?_, ?_, ?_, ?_, ?_, ?_, ?_, ?_, ?_, ?_, ?_⟩
  · intro f
    unfold createImageMain
    repeat
      first
      | exact sitePF_tail0 _
      | exact sitePF_guardedUpdate_self _ _
      | (apply sitePF_of_not_mem; decide)
      | apply sitePF_cliPrologue
      | apply sitePF_validateInputFile
      | apply sitePF_validateInputFileNoOpen
      | apply sitePF_metadataProbe
      | apply sitePF_guardedProbe
      | apply sitePF_ite
      | exact sitePF_failDiag _ _
      | exact sitePF_okInfo _ _
      | apply sitePF_prepend _ _ (by decide)
      | apply sitePF_condGuarded_self
      | refine sitePF_condGuarded_other _ _ _ _ ?_ (by decide)
      | refine sitePF_guardedUpdate_other _ _ _ ?_ (by decide)
      | refine sitePF_unguardedUpdate_other _ _ _ ?_ (by decide)
  · intro f w h
    unfold createImageFromBufferMain
    repeat
      first
      | exact sitePF_tail0 _
      | exact sitePF_guardedUpdate_self _ _
      | (apply sitePF_of_not_mem; decide)
      | apply sitePF_cliPrologue
      | apply sitePF_validateInputFile
      | apply sitePF_validateInputFileNoOpen
      | apply sitePF_metadataProbe
      | apply sitePF_guardedProbe
      | apply sitePF_ite
      | exact sitePF_failDiag _ _
      | exact sitePF_okInfo _ _
      | apply sitePF_prepend _ _ (by decide)
      | apply sitePF_condGuarded_self
      | refine sitePF_condGuarded_other _ _ _ _ ?_ (by decide)
      | refine sitePF_guardedUpdate_other _ _ _ ?_ (by decide)
      | refine sitePF_unguardedUpdate_other _ _ _ ?_ (by decide)
  · intro f
    unfold createStepWedgeMain
    repeat
      first
      | exact sitePF_tail0 _
      | exact sitePF_guardedUpdate_self _ _
      | (apply sitePF_of_not_mem; decide)
      | apply sitePF_cliPrologue
      | apply sitePF_validateInputFile
      | apply sitePF_validateInputFileNoOpen
      | apply sitePF_metadataProbe
      | apply sitePF_guardedProbe
      | apply sitePF_ite
      | exact sitePF_failDiag _ _
      | exact sitePF_okInfo _ _
      | apply sitePF_prepend _ _ (by decide)
      | apply sitePF_condGuarded_self
      | refine sitePF_condGuarded_other _ _ _ _ ?_ (by decide)
      | refine sitePF_guardedUpdate_other _ _ _ ?_ (by decide)
      | refine sitePF_unguardedUpdate_other _ _ _ ?_ (by decide)
  · intro f c oe rt
    unfold imageAffineMain
    repeat
      first
      | exact sitePF_tail0 _
      | exact sitePF_guardedUpdate_self _ _
      | (apply sitePF_of_not_mem; decide)
      | apply sitePF_cliPrologue
      | apply sitePF_validateInputFile
      | apply sitePF_validateInputFileNoOpen
      | apply sitePF_metadataProbe
      | apply sitePF_guardedProbe
      | apply sitePF_ite
      | exact sitePF_failDiag _ _
      | exact sitePF_okInfo _ _
      | apply sitePF_prepend _ _ (by decide)
      | apply sitePF_condGuarded_self
      | refine sitePF_condGuarded_other _ _ _ _ ?_ (by decide)
      | refine sitePF_guardedUpdate_other _ _ _ ?_ (by decide)
      | refine sitePF_unguardedUpdate_other _ _ _ ?_ (by decide)
  · intro f c cr it un rg b6 mc mcr mit mun mrg mb6 ov oe t1 t2 t3 t4 t5 t6 t7 t8 t9 t10
    unfold imageRegistrationMain
    repeat
      first
      | exact sitePF_tail0 _
      | exact sitePF_guardedUpdate_self _ _
      | (apply sitePF_of_not_mem; decide)
      | apply sitePF_cliPrologue
      | apply sitePF_validateInputFile
      | apply sitePF_validateInputFileNoOpen
      | apply sitePF_metadataProbe
      | apply sitePF_guardedProbe
      | apply sitePF_ite
      | exact sitePF_failDiag _ _
      | exact sitePF_okInfo _ _
      | apply sitePF_prepend _ _ (by decide)
      | apply sitePF_condGuarded_self
      | refine sitePF_condGuarded_other _ _ _ _ ?_ (by decide)
      | refine sitePF_guardedUpdate_other _ _ _ ?_ (by decide)
      | refine sitePF_unguardedUpdate_other _ _ _ ?_ (by decide)
  · intro f c cr it un rg b6 mc mcr mit mun mrg mb6 ov oe t1 t2 t3 t4 t5 t6 t7 t8 t9 t10
    unfold imageRegistrationMain
    repeat
      first
      | exact sitePF_tail0 _
      | exact sitePF_guardedUpdate_self _ _
      | (apply sitePF_of_not_mem; decide)
      | apply sitePF_cliPrologue
      | apply sitePF_validateInputFile
      | apply sitePF_validateInputFileNoOpen
      | apply sitePF_metadataProbe
      | apply sitePF_guardedProbe
      | apply sitePF_ite
      | exact sitePF_failDiag _ _
      | exact sitePF_okInfo _ _
      | apply sitePF_prepend _ _ (by decide)
      | apply sitePF_condGuarded_self
      | refine sitePF_condGuarded_other _ _ _ _ ?_ (by decide)
      | refine sitePF_guardedUpdate_other _ _ _ ?_ (by decide)
      | refine sitePF_unguardedUpdate_other _ _ _ ?_ (by decide)
  · intro f c cr it un rg b6 mc mcr mit mun mrg mb6 ov oe t1 t2 t3 t4 t5 t6 t7 t8 t9 t10
    unfold imageRegistrationMain
    repeat
      first
      | exact sitePF_tail0 _
      | exact sitePF_guardedUpdate_self _ _
      | (apply sitePF_of_not_mem; decide)
      | apply sitePF_cliPrologue
      | apply sitePF_validateInputFile
      | apply sitePF_validateInputFileNoOpen
      | apply sitePF_metadataProbe
      | apply sitePF_guardedProbe
      | apply sitePF_ite
      | exact sitePF_failDiag _ _
      | exact sitePF_okInfo _ _
      | apply sitePF_prepend _ _ (by decide)
      | apply sitePF_condGuarded_self
      | refine sitePF_condGuarded_other _ _ _ _ ?_ (by decide)
      | refine sitePF_guardedUpdate_other _ _ _ ?_ (by decide)
      | refine sitePF_unguardedUpdate_other _ _ _ ?_ (by decide)
  · intro f c cr it un rg b6 mc mcr mit mun mrg mb6 ov oe t1 t2 t3 t4 t5 t6 t7 t8 t9 t10
    unfold imageRegistrationMain
    repeat
      first
      | exact sitePF_tail0 _
      | exact sitePF_guardedUpdate_self _ _
      | (apply sitePF_of_not_mem; decide)
      | apply sitePF_cliPrologue
      | apply sitePF_validateInputFile
      | apply sitePF_validateInputFileNoOpen
      | apply sitePF_metadataProbe
      | apply sitePF_guardedProbe
      | apply sitePF_ite
      | exact sitePF_failDiag _ _
      | exact sitePF_okInfo _ _
      | apply sitePF_prepend _ _ (by decide)
      | apply sitePF_condGuarded_self
      | refine sitePF_condGuarded_other _ _ _ _ ?_ (by decide)
      | refine sitePF_guardedUpdate_other _ _ _ ?_ (by decide)
      | refine sitePF_unguardedUpdate_other _ _ _ ?_ (by decide)
  · intro f c cr it un rg b6 mc mcr mit mun mrg mb6 ov oe t1 t2 t3 t4 t5 t6 t7 t8 t9 t10
    unfold imageRegistrationMain
    repeat
      first
      | exact sitePF_tail0 _
      | exact sitePF_guardedUpdate_self _ _
      | (apply sitePF_of_not_mem; decide)
      | apply sitePF_cliPrologue
      | apply sitePF_validateInputFile
      | apply sitePF_validateInputFileNoOpen
      | apply sitePF_metadataProbe
      | apply sitePF_guardedProbe
      | apply sitePF_ite
      | exact sitePF_failDiag _ _
      | exact sitePF_okInfo _ _
      | apply sitePF_prepend _ _ (by decide)
      | apply sitePF_condGuarded_self
      | refine sitePF_condGuarded_other _ _ _ _ ?_ (by decide)
      | refine sitePF_guardedUpdate_other _ _ _ ?_ (by decide)
      | refine sitePF_unguardedUpdate_other _ _ _ ?_ (by decide)
  · intro f c cr it un rg b6 mc mcr mit mun mrg mb6 ov oe t1 t2 t3 t4 t5 t6 t7 t8 t9 t10
    unfold imageRegistrationMain
    repeat
      first
      | exact sitePF_tail0 _
      | exact sitePF_guardedUpdate_self _ _
      | (apply sitePF_of_not_mem; decide)
      | apply sitePF_cliPrologue
      | apply sitePF_validateInputFile
      | apply sitePF_validateInputFileNoOpen
      | apply sitePF_metadataProbe
      | apply sitePF_guardedProbe
      | apply sitePF_ite
      | exact sitePF_failDiag _ _
      | exact sitePF_okInfo _ _
      | apply sitePF_prepend _ _ (by decide)
      | apply sitePF_condGuarded_self
      | refine sitePF_condGuarded_other _ _ _ _ ?_ (by decide)
      | refine sitePF_guardedUpdate_other _ _ _ ?_ (by decide)
      | refine sitePF_unguardedUpdate_other _ _ _ ?_ (by decide)
  · intro f c cr it un rg b6 mc mcr mit mun mrg mb6 ov oe t1 t2 t3 t4 t5 t6 t7 t8 t9 t10
    unfold imageRegistrationMain
    repeat
      first
      | exact sitePF_tail0 _
      | exact sitePF_guardedUpdate_self _ _
      | (apply sitePF_of_not_mem; decide)
      | apply sitePF_cliPrologue
      | apply sitePF_validateInputFile
      | apply sitePF_validateInputFileNoOpen
      | apply sitePF_metadataProbe
      | apply sitePF_guardedProbe
      | apply sitePF_ite
      | exact sitePF_failDiag _ _
      | exact sitePF_okInfo _ _
      | apply sitePF_prepend _ _ (by decide)
      | apply sitePF_condGuarded_self
      | refine sitePF_condGuarded_other _ _ _ _ ?_ (by decide)
      | refine sitePF_guardedUpdate_other _ _ _ ?_ (by decide)
      | refine sitePF_unguardedUpdate_other _ _ _ ?_ (by decide)
  · intro f c cr it un rg b6 mc mcr mit mun mrg mb6 ov oe t1 t2 t3 t4 t5 t6 t7 t8 t9 t10
    unfold imageRegistrationMain
    repeat
      first
      | exact sitePF_tail0 _
      | exact sitePF_guardedUpdate_self _ _
      | (apply sitePF_of_not_mem; decide)
      | apply sitePF_cliPrologue
      | apply sitePF_validateInputFile
      | apply sitePF_validateInputFileNoOpen
      | apply sitePF_metadataProbe
      | apply sitePF_guardedProbe
      | apply sitePF_ite
      | exact sitePF_failDiag _ _
      | exact sitePF_okInfo _ _
      | apply sitePF_prepend _ _ (by decide)
      | apply sitePF_condGuarded_self
      | refine sitePF_condGuarded_other _ _ _ _ ?_ (by decide)
      | refine sitePF_guardedUpdate_other _ _ _ ?_ (by decide)
      | refine sitePF_unguardedUpdate_other _ _ _ ?_ (by decide)
  · intro f c cr it un rg b6 mc mcr mit mun mrg mb6 ov oe t1 t2 t3 t4 t5 t6 t7 t8 t9 t10
    unfold imageRegistrationMain
    repeat
      first
      | exact sitePF_tail0 _
      | exact sitePF_guardedUpdate_self _ _
      | (apply sitePF_of_not_mem; decide)
      | apply sitePF_cliPrologue
      | apply sitePF_validateInputFile
      | apply sitePF_validateInputFileNoOpen
      | apply sitePF_metadataProbe
      | apply sitePF_guardedProbe
      | apply sitePF_ite
      | exact sitePF_failDiag _ _
      | exact sitePF_okInfo _ _
      | apply sitePF_prepend _ _ (by decide)
      | apply sitePF_condGuarded_self
      | refine sitePF_condGuarded_other _ _ _ _ ?_ (by decide)
      | refine sitePF_guardedUpdate_other _ _ _ ?_ (by decide)
      | refine sitePF_unguardedUpdate_other _ _ _ ?_ (by decide)
  · intro f c cr it un rg b6 mc mcr mit mun mrg mb6 ov oe t1 t2 t3 t4 t5 t6 t7 t8 t9 t10
    unfold imageRegistrationMain
    repeat
      first
      | exact sitePF_tail0 _
      | exact sitePF_guardedUpdate_self _ _
      | (apply sitePF_of_not_mem; decide)
      | apply sitePF_cliPrologue
      | apply sitePF_validateInputFile
      | apply sitePF_validateInputFileNoOpen
      | apply sitePF_metadataProbe
      | apply sitePF_guardedProbe
      | apply sitePF_ite
      | exact sitePF_failDiag _ _
      | exact sitePF_okInfo _ _
      | apply sitePF_prepend _ _ (by decide)
      | apply sitePF_condGuarded_self
      | refine sitePF_condGuarded_other _ _ _ _ ?_ (by decide)
      | refine sitePF_guardedUpdate_other _ _ _ ?_ (by decide)
      | refine sitePF_unguardedUpdate_other _ _ _ ?_ (by decide)
  · intro f c cr it un rg b6 mc mcr mit mun mrg mb6 ov oe t1 t2 t3 t4 t5 t6 t7 t8 t9 t10
    unfold imageRegistrationMain
    repeat
      first
      | exact sitePF_tail0 _
      | exact sitePF_guardedUpdate_self _ _
      | (apply sitePF_of_not_mem; decide)
      | apply sitePF_cliPrologue
      | apply sitePF_validateInputFile
      | apply sitePF_validateInputFileNoOpen
      | apply sitePF_metadataProbe
      | apply sitePF_guardedProbe
      | apply sitePF_ite
      | exact sitePF_failDiag _ _
      | exact sitePF_okInfo _ _
      | apply sitePF_prepend _ _ (by decide)
      | apply sitePF_condGuarded_self
      | refine sitePF_condGuarded_other _ _ _ _ ?_ (by decide)
      | refine sitePF_guardedUpdate_other _ _ _ ?_ (by decide)
      | refine sitePF_unguardedUpdate_other _ _ _ ?_ (by decide)
  · intro pt ift
    unfold rectangleToImageMain
    repeat
      first
      | exact sitePF_tail0 _
      | exact sitePF_guardedUpdate_self _ _
      | (apply sitePF_of_not_mem; decide)
      | apply sitePF_cliPrologue
      | apply sitePF_validateInputFile
      | apply sitePF_validateInputFileNoOpen
      | apply sitePF_metadataProbe
      | apply sitePF_guardedProbe
      | apply sitePF_ite
      | exact sitePF_failDiag _ _
      | exact sitePF_okInfo _ _
      | apply sitePF_prepend _ _ (by decide)
      | apply sitePF_condGuarded_self
      | refine sitePF_condGuarded_other _ _ _ _ ?_ (by decide)
      | refine sitePF_guardedUpdate_other _ _ _ ?_ (by decide)
      | refine sitePF_unguardedUpdate_other _ _ _ ?_ (by decide)
  · intro f c ov oe cr it un rg b6
    unfold rgbToLuminanceMain
    repeat
      first
      | exact sitePF_tail0 _
      | exact sitePF_guardedUpdate_self _ _
      | (apply sitePF_of_not_mem; decide)
      | apply sitePF_cliPrologue
      | apply sitePF_validateInputFile
      | apply sitePF_validateInputFileNoOpen
      | apply sitePF_metadataProbe
      | apply sitePF_guardedProbe
      | apply sitePF_ite
      | exact sitePF_failDiag _ _
      | exact sitePF_okInfo _ _
      | apply sitePF_prepend _ _ (by decide)
      | apply sitePF_condGuarded_self
      | refine sitePF_condGuarded_other _ _ _ _ ?_ (by decide)
      | refine sitePF_guardedUpdate_other _ _ _ ?_ (by decide)
      | refine sitePF_unguardedUpdate_other _ _ _ ?_ (by decide)
  · intro f c cr xs ys rs wt
    unfold shiftEpidMain
    repeat
      first
      | exact sitePF_tail0 _
      | exact sitePF_guardedUpdate_self _ _
      | (apply sitePF_of_not_mem; decide)
      | apply sitePF_cliPrologue
      | apply sitePF_validateInputFile
      | apply sitePF_validateInputFileNoOpen
      | apply sitePF_metadataProbe
      | apply sitePF_guardedProbe
      | apply sitePF_ite
      | exact sitePF_failDiag _ _
      | exact sitePF_okInfo _ _
      | apply sitePF_prepend _ _ (by decide)
      | apply sitePF_condGuarded_self
      | refine sitePF_condGuarded_other _ _ _ _ ?_ (by decide)
      | refine sitePF_guardedUpdate_other _ _ _ ?_ (by decide)
      | refine sitePF_unguardedUpdate_other _ _ _ ?_ (by decide)
  · intro f c cr xs ys rt wt
    unfold shiftEpidMain
    repeat
      first
      | exact sitePF_tail0 _
      | exact sitePF_guardedUpdate_self _ _
      | (apply sitePF_of_not_mem; decide)
      | apply sitePF_cliPrologue
      | apply sitePF_validateInputFile
      | apply sitePF_validateInputFileNoOpen
      | apply sitePF_metadataProbe
      | apply sitePF_guardedProbe
      | apply sitePF_ite
      | exact sitePF_failDiag _ _
      | exact sitePF_okInfo _ _
      | apply sitePF_prepend _ _ (by decide)
      | apply sitePF_condGuarded_self
      | refine sitePF_condGuarded_other _ _ _ _ ?_ (by decide)
      | refine sitePF_guardedUpdate_other _ _ _ ?_ (by decide)
      | refine sitePF_unguardedUpdate_other _ _ _ ?_ (by decide)
  · intro f c cr xs ys rt rs
    unfold shiftEpidMain
    repeat
      first
      | exact sitePF_tail0 _
      | exact sitePF_guardedUpdate_self _ _
      | (apply sitePF_of_not_mem; decide)
      | apply sitePF_cliPrologue
      | apply sitePF_validateInputFile
      | apply sitePF_validateInputFileNoOpen
      | apply sitePF_metadataProbe
      | apply sitePF_guardedProbe
      | apply sitePF_ite
      | exact sitePF_failDiag _ _
      | exact sitePF_okInfo _ _
      | apply sitePF_prepend _ _ (by decide)
      | apply sitePF_condGuarded_self
      | refine sitePF_condGuarded_other _ _ _ _ ?_ (by decide)
      | refine sitePF_guardedUpdate_other _ _ _ ?_ (by decide)
      | refine sitePF_unguardedUpdate_other _ _ _ ?_ (by decide)
  · intro ap tf eis ft c1 w1 fl c2 c2s w2
    unfold shiftsCalculatorMain
    repeat
      first
      | exact sitePF_tail0 _
      | exact sitePF_guardedUpdate_self _ _
      | (apply sitePF_of_not_mem; decide)
      | apply sitePF_cliPrologue
      | apply sitePF_validateInputFile
      | apply sitePF_validateInputFileNoOpen
      | apply sitePF_metadataProbe
      | apply sitePF_guardedProbe
      | apply sitePF_ite
      | exact sitePF_failDiag _ _
      | exact sitePF_okInfo _ _
      | apply sitePF_prepend _ _ (by decide)
      | apply sitePF_condGuarded_self
      | refine sitePF_condGuarded_other _ _ _ _ ?_ (by decide)
      | refine sitePF_guardedUpdate_other _ _ _ ?_ (by decide)
      | refine sitePF_unguardedUpdate_other _ _ _ ?_ (by decide)
  · intro f cv wr wg wb c ov eR eG eB cr it un rg b6 tG tB
    unfold splitChannelsCxxMain
    repeat
      first
      | exact sitePF_tail0 _
      | exact sitePF_guardedUpdate_self _ _
      | (apply sitePF_of_not_mem; decide)
      | apply sitePF_cliPrologue
      | apply sitePF_validateInputFile
      | apply sitePF_validateInputFileNoOpen
      | apply sitePF_metadataProbe
      | apply sitePF_guardedProbe
      | apply sitePF_ite
      | exact sitePF_failDiag _ _
      | exact sitePF_okInfo _ _
      | apply sitePF_prepend _ _ (by decide)
      | apply sitePF_condGuarded_self
      | refine sitePF_condGuarded_other _ _ _ _ ?_ (by decide)
      | refine sitePF_guardedUpdate_other _ _ _ ?_ (by decide)
      | refine sitePF_unguardedUpdate_other _ _ _ ?_ (by decide)
  · intro f cv wr wg wb c ov eR eG eB cr it un rg b6 tR tB
    unfold splitChannelsCxxMain
    repeat
      first
      | exact sitePF_tail0 _
      | exact sitePF_guardedUpdate_self _ _
      | (apply sitePF_of_not_mem; decide)
      | apply sitePF_cliPrologue
      | apply sitePF_validateInputFile
      | apply sitePF_validateInputFileNoOpen
      | apply sitePF_metadataProbe
      | apply sitePF_guardedProbe
      | apply sitePF_ite
      | exact sitePF_failDiag _ _
      | exact sitePF_okInfo _ _
      | apply sitePF_prepend _ _ (by decide)
      | apply sitePF_condGuarded_self
      | refine sitePF_condGuarded_other _ _ _ _ ?_ (by decide)
      | refine sitePF_guardedUpdate_other _ _ _ ?_ (by decide)
      | refine sitePF_unguardedUpdate_other _ _ _ ?_ (by decide)
  · intro f cv wr wg wb c ov eR eG eB cr it un rg b6 tR tG
    unfold splitChannelsCxxMain
    repeat
      first
      | exact sitePF_tail0 _
      | exact sitePF_guardedUpdate_self _ _
      | (apply sitePF_of_not_mem; decide)
      | apply sitePF_cliPrologue
      | apply sitePF_validateInputFile
      | apply sitePF_validateInputFileNoOpen
      | apply sitePF_metadataProbe
      | apply sitePF_guardedProbe
      | apply sitePF_ite
      | exact sitePF_failDiag _ _
      | exact sitePF_okInfo _ _
      | apply sitePF_prepend _ _ (by decide)
      | apply sitePF_condGuarded_self
      | refine sitePF_condGuarded_other _ _ _ _ ?_ (by decide)
      | refine sitePF_guardedUpdate_other _ _ _ ?_ (by decide)
      | refine sitePF_unguardedUpdate_other _ _ _ ?_ (by decide)
  · intro ift wt
    unfold rectangleToImageMain
    repeat
      first
      | exact siteAS_tail0 _
      | exact siteAS_unguardedUpdate_self _ _
      | (apply siteAS_of_not_mem; decide)
      | apply siteAS_ite
      | exact siteAS_failDiag _ _
      | exact siteAS_okInfo _ _
      | apply siteAS_prepend _ _ (by decide) (by decide)
      | refine siteAS_guardedUpdate_other _ _ _ ?_ (by decide)
      | refine siteAS_unguardedUpdate_other _ _ _ ?_ (by decide)
  · intro pt wt
    unfold rectangleToImageMain
    repeat
      first
      | exact siteAS_tail0 _
      | exact siteAS_unguardedUpdate_self _ _
      | (apply siteAS_of_not_mem; decide)
      | apply siteAS_ite
      | exact siteAS_failDiag _ _
      | exact siteAS_okInfo _ _
      | apply siteAS_prepend _ _ (by decide) (by decide)
      | refine siteAS_guardedUpdate_other _ _ _ ?_ (by decide)
      | refine siteAS_unguardedUpdate_other _ _ _ ?_ (by decide)
  · intro ap rt tf eis c1 w1 fl c2 c2s w2
    unfold shiftsCalculatorMain
    repeat
      first
      | exact siteAS_tail0 _
      | exact siteAS_unguardedUpdate_self _ _
      | (apply siteAS_of_not_mem; decide)
      | apply siteAS_ite
      | exact siteAS_failDiag _ _
      | exact siteAS_okInfo _ _
      | apply siteAS_prepend _ _ (by decide) (by decide)
      | refine siteAS_guardedUpdate_other _ _ _ ?_ (by decide)
      | refine siteAS_unguardedUpdate_other _ _ _ ?_ (by decide)
  · intro ap rt tf eis ft c1 w1 c2 c2s w2
    unfold shiftsCalculatorMain
    repeat
      first
      | exact siteAS_tail0 _
      | exact siteAS_unguardedUpdate_self _ _
      | (apply siteAS_of_not_mem; decide)
      | apply siteAS_ite
      | exact siteAS_failDiag _ _
      | exact siteAS_okInfo _ _
      | apply siteAS_prepend _ _ (by decide) (by decide)
      | refine siteAS_guardedUpdate_other _ _ _ ?_ (by decide)
      | refine siteAS_unguardedUpdate_other _ _ _ ?_ (by decide)
  · intro ap cr it un rg b6
    unfold stepWedgeDenoiseMain
    repeat
      first
      | exact sitePA_tail0 _
      | exact sitePA_guardedUpdateThenAbort_self _ _
      | (apply sitePA_of_not_mem; decide)
      | apply sitePA_ite
      | exact sitePA_failDiag _ _
      | apply sitePA_prepend _ _ (by decide)
      | apply sitePA_probeNoTry

/-- C5 witness: a throwing writer in `create_image.cpp` prints its
description and exits 1; a throwing `polygon->Update()` in
`rectangle_to_image.cxx` aborts without printing. -/
theorem C5_witness :
    (Ev.excDesc "writer.Update" ∈
        (createImageMain ⟨false, false, false, false⟩ true).events ∧
      (createImageMain ⟨false, false, false, false⟩ true).exit = .code 1) ∧
    ((rectangleToImageMain true false false).exit = .aborted ∧
      Ev.excDesc "polygon.Update" ∉
        (rectangleToImageMain true false false).events) :=
  ⟨C5_update_wrapping.1 ⟨false, false, false, false⟩ (by decide),
   (C5_update_wrapping.2.2.2.2.2.2.2.2.2.2.2.2.2.2.2.2.2.2.2.2.2.2.2.2.1)
     false false (by decide)⟩

/-! ## Claim C6 -/

/-- Modelled from the spec's words for the amended claim C6: the first
violated condition among the four checks `shift_epid.cxx` performs (it
omits the readability probe). -/
def firstFailedCheckNoOpen (c : FileChecks) : Option String :=
  if c.argEmpty then some "usage"
  else if ¬ c.fileExists then some "File does not exist"
  else if ¬ c.isRegular then some "Not a regular file"
  else if c.sizeZero then some "Empty file"
  else none

theorem cliPrologue_clear (f : CliFlags) {rest : Run}
    (h1 : f.unsupported = false) (h2 : f.showHelp = false)
    (h3 : f.printUsage = false) (h4 : f.showVersion = false) :
    cliPrologue f rest = rest := by
  unfold cliPrologue
  rw [h1, h2, h3, h4]
  simp

theorem validateInputFile_of_failed {c : FileChecks} {m : String}
    (hm : firstFailedCheck c = some m) (rest : Run) :
    validateInputFile c rest = failDiag m := by
  unfold validateInputFile
  unfold firstFailedCheck at hm
  split_ifs at hm ⊢ <;> simp_all

theorem validateInputFile_of_none {c : FileChecks}
    (hm : firstFailedCheck c = none) (rest : Run) :
    validateInputFile c rest = rest := by
  unfold validateInputFile
  unfold firstFailedCheck at hm
  split_ifs at hm ⊢ <;> simp_all

theorem validateInputFileNoOpen_of_failed {c : FileChecks} {m : String}
    (hm : firstFailedCheckNoOpen c = some m) (rest : Run) :
    validateInputFileNoOpen c rest = failDiag m := by
  unfold validateInputFileNoOpen
  unfold firstFailedCheckNoOpen at hm
  split_ifs at hm ⊢ <;> simp_all

theorem metadataProbe_pass (s : String) (rest : Run) :
    metadataProbe s false rest = Run.prepend [.info s] rest := by
  simp [metadataProbe]

/-- C6, counterexample: `shifts_calculator.cxx` takes an input-file
argument but performs none of the five validation checks: once the
argument is present, its very first observable action is the pipeline
operation `reader->Update()` — no validation diagnostic is printed
before a toolkit pipeline operation runs (here the reader throws, e.g.
because the file does not exist, and the run's events are exactly the
pipeline invocation and the caught exception's description). -/
theorem C6_counterexample :
    shiftsCalculatorMain true true true true false false false false false false false =
      ⟨[Ev.pipelineOp "reader.Update", Ev.excDesc "reader.Update"], .code 1⟩ := rfl

/-- C6 (amended): the clipp-based programs with a file argument
(`rgb_to_luminance.cxx`, `app.cpp`, `split_channels.cpp`,
`image_affine_transform.cpp`, `split_channels.cxx` — after its channel
check — and `image_registration.cxx` for each of its two files)
validate the input in the order (argument non-empty, exists, regular
file, non-empty, readable) and print one diagnostic and exit 1 at the
first violated condition, before any toolkit pipeline operation;
`shift_epid.cxx` does the same but omits the readability check;
`shifts_calculator.cxx` and `step_wedge_denoise.cxx` only check that
the argument is present. -/
theorem C6_input_validation :
    (∀ (f : CliFlags) (c : FileChecks) (ov oe cr it un rg b6 wt : Bool) (m : String),
      f.unsupported = false → f.showHelp = false → f.printUsage = false →
      f.showVersion = false → firstFailedCheck c = some m →
      rgbToLuminanceMain f c ov oe cr it un rg b6 wt = ⟨[Ev.diag m], .code 1⟩) ∧
    (∀ (f : CliFlags) (c : FileChecks) (ct sf qf : Bool) (m : String),
      f.unsupported = false → f.showHelp = false → f.printUsage = false →
      f.showVersion = false → firstFailedCheck c = some m →
      appMain f c ct sf qf = ⟨[Ev.diag m], .code 1⟩) ∧
    (∀ (f : CliFlags) (c : FileChecks) (oe it : Bool) (m : String),
      f.unsupported = false → f.showHelp = false → f.printUsage = false →
      f.showVersion = false → firstFailedCheck c = some m →
      splitChannelsCppMain f c oe it = ⟨[Ev.diag m], .code 1⟩) ∧
    (∀ (f : CliFlags) (c : FileChecks) (oe rt wt : Bool) (m : String),
      f.unsupported = false → f.showHelp = false → f.printUsage = false →
      f.showVersion = false → firstFailedCheck c = some m →
      imageAffineMain f c oe rt wt = ⟨[Ev.diag m], .code 1⟩) ∧
    (∀ (f : CliFlags) (cv wr wg wb : Bool) (c : FileChecks)
       (ov eR eG eB cr it un rg b6 tR tG tB : Bool) (m : String),
      f.unsupported = false → f.showHelp = false → f.printUsage = false →
      f.showVersion = false → cv = true → firstFailedCheck c = some m →
      splitChannelsCxxMain f cv wr wg wb c ov eR eG eB cr it un rg b6 tR tG tB
        = ⟨[Ev.diag m], .code 1⟩) ∧
    (∀ (f : CliFlags) (c : FileChecks) (cr it un rg b6 : Bool) (mc : FileChecks)
       (mcr mit mun mrg mb6 ov oe t1 t2 t3 t4 t5 t6 t7 t8 t9 t10 t11 : Bool)
       (m : String),
      f.unsupported = false → f.showHelp = false → f.printUsage = false →
      f.showVersion = false → firstFailedCheck c = some m →
      imageRegistrationMain f c cr it un rg b6 mc mcr mit mun mrg mb6 ov oe
        t1 t2 t3 t4 t5 t6 t7 t8 t9 t10 t11 = ⟨[Ev.diag m], .code 1⟩) ∧
    (∀ (f : CliFlags) (c : FileChecks) (cr it un rg b6 : Bool) (mc : FileChecks)
       (mcr mit mun mrg mb6 ov oe t1 t2 t3 t4 t5 t6 t7 t8 t9 t10 t11 : Bool)
       (m : String),
      f.unsupported = false → f.showHelp = false → f.printUsage = false →
      f.showVersion = false → firstFailedCheck c = none → cr = true →
      it = false → un = true → rg = true → b6 = true →
      firstFailedCheck mc = some m →
      imageRegistrationMain f c cr it un rg b6 mc mcr mit mun mrg mb6 ov oe
        t1 t2 t3 t4 t5 t6 t7 t8 t9 t10 t11 =
        ⟨[Ev.info "fixed.ReadImageInformation", Ev.diag m], .code 1⟩) ∧
    (∀ (f : CliFlags) (c : FileChecks) (cr : Bool) (xs ys : ℚ)
       (rt rs wt : Bool) (m : String),
      f.unsupported = false → f.showHelp = false → f.printUsage = false →
      f.showVersion = false → firstFailedCheckNoOpen c = some m →
      shiftEpidMain f c cr xs ys rt rs wt = ⟨[Ev.diag m], .code 1⟩) ∧
    (∀ (rt tf eis ft c1 w1 fl c2 c2s w2 : Bool),
      shiftsCalculatorMain false rt tf eis ft c1 w1 fl c2 c2s w2
        = ⟨[Ev.diag "Usage"], .code 1⟩) ∧
    (∀ (cr it un rg b6 wt : Bool),
      stepWedgeDenoiseMain false cr it un rg b6 wt
        = ⟨[Ev.diag "Usage"], .code 1⟩) := by
  refine ⟨?_, ?_, ?_, ?_, ?_, ?_, ?_, ?_, ?_, ?_⟩
  · intro f c ov oe cr it un rg b6 wt m h1 h2 h3 h4 hm
    unfold rgbToLuminanceMain
    rw [cliPrologue_clear f h1 h2 h3 h4, validateInputFile_of_failed hm]
    rfl
  · intro f c ct sf qf m h1 h2 h3 h4 hm
    unfold appMain
    rw [cliPrologue_clear f h1 h2 h3 h4, validateInputFile_of_failed hm]
    rfl
  · intro f c oe it m h1 h2 h3 h4 hm
    unfold splitChannelsCppMain
    rw [cliPrologue_clear f h1 h2 h3 h4, validateInputFile_of_failed hm]
    rfl
  · intro f c oe rt wt m h1 h2 h3 h4 hm
    unfold imageAffineMain
    rw [cliPrologue_clear f h1 h2 h3 h4, validateInputFile_of_failed hm]
    rfl
  · intro f cv wr wg wb c ov eR eG eB cr it un rg b6 tR tG tB m h1 h2 h3 h4 h5 hm
    unfold splitChannelsCxxMain
    rw [cliPrologue_clear f h1 h2 h3 h4,
      if_neg (show ¬ (¬ cv = true) by simp [h5]),
      validateInputFile_of_failed hm]
    rfl
  · intro f c cr it un rg b6 mc mcr mit mun mrg mb6 ov oe
      t1 t2 t3 t4 t5 t6 t7 t8 t9 t10 t11 m h1 h2 h3 h4 hm
    unfold imageRegistrationMain
    rw [cliPrologue_clear f h1 h2 h3 h4, validateInputFile_of_failed hm]
    rfl
  · intro f c cr it un rg b6 mc mcr mit mun mrg mb6 ov oe
      t1 t2 t3 t4 t5 t6 t7 t8 t9 t10 t11 m h1 h2 h3 h4 hfix hcr hinfo hunc hrgb hb6 hm
    unfold imageRegistrationMain
    rw [cliPrologue_clear f h1 h2 h3 h4, validateInputFile_of_none hfix,
      if_neg (show ¬ (¬ cr = true) by simp [hcr]),
      hinfo, metadataProbe_pass,
      if_neg (show ¬ (¬ un = true) by simp [hunc]),
      if_neg (show ¬ (¬ rg = true) by simp [hrgb]),
      if_neg (show ¬ (¬ b6 = true) by simp [hb6]),
      validateInputFile_of_failed hm]
    rfl
  · intro f c cr xs ys rt rs wt m h1 h2 h3 h4 hm
    unfold shiftEpidMain
    rw [cliPrologue_clear f h1 h2 h3 h4, validateInputFileNoOpen_of_failed hm]
    rfl
  · intro rt tf eis ft c1 w1 fl c2 c2s w2
    rfl
  · intro cr it un rg b6 wt
    rfl

/-- C6 witness: `rgb_to_luminance` with an existing-file check failing
prints exactly the "File does not exist" diagnostic and exits 1. -/
theorem C6_witness :
    rgbToLuminanceMain ⟨false, false, false, false⟩ ⟨false, false, true, false, true⟩
        false false true false true true true false =
      ⟨[Ev.diag "File does not exist"], .code 1⟩ :=
  C6_input_validation.1 ⟨false, false, false, false⟩ ⟨false, false, true, false, true⟩
    false false true false true true true false "File does not exist"
    rfl rfl rfl rfl (by decide)

/-! ## Claim C7 -/

/-- C7: in every program and for every outcome of its branch
conditions, any exit code the process returns is 0 or 1; failure kinds
are not distinguished by distinct codes.  (Runs that abort on an
uncaught exception return no exit code and are covered vacuously.) -/
theorem C7_exit_codes_binary :
    (∀ (f : CliFlags) (c : FileChecks) (ct sf qf : Bool),
      exitOk (appMain f c ct sf qf)) ∧
    (∀ (f : CliFlags) (wt : Bool), exitOk (createImageMain f wt)) ∧
    (∀ (f : CliFlags) (w h : ℤ) (wt : Bool),
      exitOk (createImageFromBufferMain f w h wt)) ∧
    (∀ (f : CliFlags) (wt : Bool), exitOk (createStepWedgeMain f wt)) ∧
    (∀ (f : CliFlags) (c : FileChecks) (oe rt wt : Bool),
      exitOk (imageAffineMain f c oe rt wt)) ∧
    (∀ (f : CliFlags) (c : FileChecks) (cr it un rg b6 : Bool) (mc : FileChecks)
       (mcr mit mun mrg mb6 ov oe t1 t2 t3 t4 t5 t6 t7 t8 t9 t10 t11 : Bool),
      exitOk (imageRegistrationMain f c cr it un rg b6 mc mcr mit mun mrg mb6
        ov oe t1 t2 t3 t4 t5 t6 t7 t8 t9 t10 t11)) ∧
    (∀ (pt ift wt : Bool), exitOk (rectangleToImageMain pt ift wt)) ∧
    (∀ (f : CliFlags) (c : FileChecks) (ov oe cr it un rg b6 wt : Bool),
      exitOk (rgbToLuminanceMain f c ov oe cr it un rg b6 wt)) ∧
    (∀ (f : CliFlags) (c : FileChecks) (cr : Bool) (xs ys : ℚ) (rt rs wt : Bool),
      exitOk (shiftEpidMain f c cr xs ys rt rs wt)) ∧
    (∀ (ap rt tf eis ft c1 w1 fl c2 c2s w2 : Bool),
      exitOk (shiftsCalculatorMain ap rt tf eis ft c1 w1 fl c2 c2s w2)) ∧
    (∀ (f : CliFlags) (c : FileChecks) (oe it : Bool),
      exitOk (splitChannelsCppMain f c oe it)) ∧
    (∀ (f : CliFlags) (cv wr wg wb : Bool) (c : FileChecks)
       (ov eR eG eB cr it un rg b6 tR tG tB : Bool),
      exitOk (splitChannelsCxxMain f cv wr wg wb c ov eR eG eB cr it un rg b6 tR tG tB)) ∧
    (∀ (f : CliFlags) (mv sv : ℚ), exitOk (statDemoMain f mv sv)) ∧
    (∀ (ap cr it un rg b6 wt : Bool),
      exitOk (stepWedgeDenoiseMain ap cr it un rg b6 wt)) := by
  refine ⟨?_, ?_, ?_, ?_, ?_, ?_, ?_, ?_, ?_, ?_, ?_, ?_, ?_, ?_⟩
  · intro f c ct sf qf
    exact exitOk_cliPrologue _ <| exitOk_validateInputFile _ <| exitOk_prepend _ <|
      exitOk_ite _ (exitOk_failDiag _) <| exitOk_ite _ (exitOk_failDiag _) <|
      exitOk_ite _ (exitOk_failDiag _) (exitOk_mk0 _)
  · intro f wt
    exact exitOk_cliPrologue _ <| exitOk_guardedUpdate _ _ (exitOk_mk0 _)
  · intro f w h wt
    exact exitOk_cliPrologue _ <| exitOk_ite _ (exitOk_failDiag _) <|
      exitOk_guardedUpdate _ _ (exitOk_mk0 _)
  · intro f wt
    exact exitOk_cliPrologue _ <| exitOk_prepend _ <|
      exitOk_guardedUpdate _ _ (exitOk_mk0 _)
  · intro f c oe rt wt
    exact exitOk_cliPrologue _ <| exitOk_validateInputFile _ <|
      exitOk_ite _ (exitOk_failDiag _) <| exitOk_guardedUpdate _ _ <|
      exitOk_guardedUpdate _ _ (exitOk_mk0 _)
  · intro f c cr it un rg b6 mc mcr mit mun mrg mb6 ov oe t1 t2 t3 t4 t5 t6 t7 t8 t9 t10 t11
    exact exitOk_cliPrologue _ <| exitOk_validateInputFile _ <|
      exitOk_ite _ (exitOk_failDiag _) <| exitOk_metadataProbe _ _ <|
      exitOk_ite _ (exitOk_failDiag _) <| exitOk_ite _ (exitOk_failDiag _) <|
      exitOk_ite _ (exitOk_failDiag _) <| exitOk_validateInputFile _ <|
      exitOk_ite _ (exitOk_failDiag _) <| exitOk_metadataProbe _ _ <|
      exitOk_ite _ (exitOk_failDiag _) <| exitOk_ite _ (exitOk_failDiag _) <|
      exitOk_ite _ (exitOk_failDiag _) <| exitOk_ite _ (exitOk_failDiag _) <|
      exitOk_guardedUpdate _ _ <| exitOk_guardedUpdate _ _ <|
      exitOk_guardedUpdate _ _ <| exitOk_guardedUpdate _ _ <|
      exitOk_guardedUpdate _ _ <| exitOk_guardedUpdate _ _ <|
      exitOk_guardedUpdate _ _ <| exitOk_guardedUpdate _ _ <|
      exitOk_guardedUpdate _ _ <| exitOk_prepend _ <|
      exitOk_guardedUpdate _ _ <| exitOk_guardedUpdate _ _ (exitOk_mk0 _)
  · intro pt ift wt
    exact exitOk_unguardedUpdate _ _ <| exitOk_prepend _ <|
      exitOk_unguardedUpdate _ _ <| exitOk_prepend _ <|
      exitOk_guardedUpdate _ _ (exitOk_mk0 _)
  · intro f c ov oe cr it un rg b6 wt
    exact exitOk_cliPrologue _ <| exitOk_validateInputFile _ <|
      exitOk_ite _ (exitOk_failDiag _) <| exitOk_ite _ (exitOk_failDiag _) <|
      exitOk_metadataProbe _ _ <| exitOk_ite _ (exitOk_failDiag _) <|
      exitOk_ite _ (exitOk_failDiag _) <| exitOk_ite _ (exitOk_failDiag _) <|
      exitOk_guardedUpdate _ _ (exitOk_mk0 _)
  · intro f c cr xs ys rt rs wt
    exact exitOk_cliPrologue _ <| exitOk_validateInputFileNoOpen _ <|
      exitOk_ite _ (exitOk_failDiag _) <| exitOk_ite _ (exitOk_failDiag _) <|
      exitOk_ite _ (exitOk_failDiag _) <| exitOk_guardedUpdate _ _ <|
      exitOk_prepend _ <| exitOk_guardedUpdate _ _ <|
      exitOk_guardedUpdate _ _ (exitOk_mk0 _)
  · intro ap rt tf eis ft c1 w1 fl c2 c2s w2
    exact exitOk_ite _ (exitOk_failDiag _) <| exitOk_guardedUpdate _ _ <|
      exitOk_prepend _ <| exitOk_ite _ (exitOk_failDiag _) <|
      exitOk_ite _ (exitOk_failDiag _) <| exitOk_unguardedUpdate _ _ <|
      exitOk_guardedUpdate _ _ <| exitOk_guardedUpdate _ _ <|
      exitOk_unguardedUpdate _ _ <| exitOk_guardedUpdate _ _ <|
      exitOk_unguardedUpdate _ _ <| exitOk_guardedUpdate _ _ (exitOk_mk0 _)
  · intro f c oe it
    exact exitOk_cliPrologue _ <| exitOk_validateInputFile _ <|
      exitOk_ite _ (exitOk_failDiag _) <| exitOk_guardedProbe _ _ (exitOk_mk0 _)
  · intro f cv wr wg wb c ov eR eG eB cr it un rg b6 tR tG tB
    exact exitOk_cliPrologue _ <| exitOk_ite _ (exitOk_failDiag _) <|
      exitOk_validateInputFile _ <| exitOk_ite _ (exitOk_failDiag _) <|
      exitOk_ite _ (exitOk_failDiag _) <| exitOk_ite _ (exitOk_failDiag _) <|
      exitOk_ite _ (exitOk_failDiag _) <| exitOk_metadataProbe _ _ <|
      exitOk_ite _ (exitOk_failDiag _) <| exitOk_ite _ (exitOk_failDiag _) <|
      exitOk_ite _ (exitOk_failDiag _) <| exitOk_condGuarded _ _ _ <|
      exitOk_condGuarded _ _ _ <| exitOk_condGuarded _ _ _ (exitOk_mk0 _)
  · intro f mv sv
    exact exitOk_cliPrologue _ <| exitOk_ite _ (exitOk_failDiag _) <|
      exitOk_ite _ (exitOk_failDiag _) (exitOk_mk0 _)
  · intro ap cr it un rg b6 wt
    exact exitOk_ite _ (exitOk_failDiag _) <| exitOk_ite _ (exitOk_failDiag _) <|
      exitOk_probeNoTry _ _ <| exitOk_ite _ (exitOk_failDiag _) <|
      exitOk_ite _ (exitOk_failDiag _) <| exitOk_ite _ (exitOk_failDiag _) <|
      exitOk_guardedUpdateThenAbort _ _ (exitOk_mk0 _)

/-- C7 witness: a failing run of `rectangle_to_image` returns code 1,
which is 0 or 1. -/
theorem C7_witness : (1 : ℕ) = 0 ∨ (1 : ℕ) = 1 :=
  (C7_exit_codes_binary.2.2.2.2.2.2.1) false false true 1 rfl

/-! ## Claim C8 -/

/-- C8, counterexample: after the statistics pass the table no longer
stores occurrence counts.  If all 10000 drawn samples round to 0, the
entry at key 0 holds 1000 (the rounded per-mille frequency), not the
occurrence count 10000. -/
theorem C8_counterexample :
    tlookup (normalizeTable (buildTable (List.replicate 10000 (0 : ℤ)))) 0
        = some 1000 ∧
    (List.replicate 10000 (0 : ℤ)).count 0 = 10000 := by
  have hb : buildTable (List.replicate 10000 (0 : ℤ)) = [(0, (10000 : ℤ))] := by
    have h := buildTable_replicate 10000 (0 : ℤ) (by norm_num)
    rw [show (((10000 : ℕ) : ℤ)) = (10000 : ℤ) by norm_num] at h
    exact h
  constructor
  · unfold normalizeTable
    rw [hb, tlookup_normalizeWith]
    have h1 : tlookup [((0 : ℤ), (10000 : ℤ))] 0 = some 10000 := by decide
    have h2 : tableTotal [((0 : ℤ), (10000 : ℤ))] = 10000 := by decide
    rw [h1, h2, Option.map_some']
    norm_num [round_eq]
  · rw [List.count_replicate_self]

/-- C8 (amended): at every point of the run the table's keys are
exactly the rounded samples drawn so far; the value at each key is that
key's occurrence count up to the end of the population loop, after
which the statistics pass overwrites it with the rounded per-mille
relative frequency `round((count / total) * 1000)`. -/
theorem C8_table_contents (samples : List ℤ) (w : ℤ) :
    ((∃ c, tlookup (buildTable samples) w = some c) ↔ w ∈ samples) ∧
    (∀ c, tlookup (buildTable samples) w = some c → c = samples.count w) ∧
    ((∃ c, tlookup (normalizeTable (buildTable samples)) w = some c) ↔ w ∈ samples) ∧
    (∀ c, tlookup (buildTable samples) w = some c →
      tlookup (normalizeTable (buildTable samples)) w =
        some (round (((c : ℚ) / (tableTotal (buildTable samples) : ℚ)) * 1000))) := by
  refine ⟨buildTable_mem_iff samples w,
    fun c h => buildTable_count samples w c h, ?_, fun c h => ?_⟩
  · rw [← buildTable_mem_iff samples w]
    unfold normalizeTable
    rw [tlookup_normalizeWith]
    cases tlookup (buildTable samples) w <;> simp
  · unfold normalizeTable
    rw [tlookup_normalizeWith, h]
    rfl

/-- C8 witness: for the sample list `[0, 0, 1]`, key 0 holds count 2
after population, and `round((2/3)*1000) = 667` after the statistics
pass. -/
theorem C8_witness :
    tlookup (normalizeTable (buildTable [(0 : ℤ), 0, 1])) 0 = some 667 := by
  have h2 : tlookup (buildTable [(0 : ℤ), 0, 1]) 0 = some 2 := by decide
  have h := (C8_table_contents [(0 : ℤ), 0, 1] 0).2.2.2 2 h2
  rw [h]
  have ht : tableTotal (buildTable [(0 : ℤ), 0, 1]) = 3 := by decide
  rw [ht]
  norm_num [round_eq]

/-! ## Claim C10 -/

/-- C10: with no high-priority switch, a non-integral `--mean` value
makes the program print the mean diagnostic and exit 1 before any
sampling; with an integral mean, a non-integral `--standard-deviation`
does the same with the standard-deviation diagnostic; with both
integral, execution proceeds to the sampling phase. -/
theorem C10_integer_options (f : CliFlags) (meanValue stddevValue : ℚ)
    (h1 : f.unsupported = false) (h2 : f.showHelp = false)
    (h3 : f.printUsage = false) (h4 : f.showVersion = false) :
    (⌊meanValue⌋ ≠ ⌈meanValue⌉ →
      statDemoMain f meanValue stddevValue =
        ⟨[Ev.diag "Mean value must be an integer"], .code 1⟩) ∧
    (⌊meanValue⌋ = ⌈meanValue⌉ → ⌊stddevValue⌋ ≠ ⌈stddevValue⌉ →
      statDemoMain f meanValue stddevValue =
        ⟨[Ev.diag "Standard deviation value must be an integer"], .code 1⟩) ∧
    (⌊meanValue⌋ = ⌈meanValue⌉ → ⌊stddevValue⌋ = ⌈stddevValue⌉ →
      statDemoMain f meanValue stddevValue =
        ⟨[Ev.info "sampling", Ev.info "statistics"], .code 0⟩) := by
  unfold statDemoMain cliPrologue
  rw [h1, h2, h3, h4]
  simp only [Bool.false_eq_true, if_false]
  refine ⟨fun hne => ?_, fun hme hne => ?_, fun hme hse => ?_⟩
  · rw [if_pos hne, failDiag]
  · rw [if_neg (not_not.mpr hme), if_pos hne, failDiag]
  · rw [if_neg (not_not.mpr hme), if_neg (not_not.mpr hse)]

/-- C10 witness: `--mean 0.5` is rejected with the mean diagnostic. -/
theorem C10_witness :
    statDemoMain ⟨false, false, false, false⟩ (1/2) 5 =
      ⟨[Ev.diag "Mean value must be an integer"], .code 1⟩ :=
  (C10_integer_options ⟨false, false, false, false⟩ (1/2) 5 rfl rfl rfl rfl).1 (by
    have hc : (⌈(1/2 : ℚ)⌉ : ℤ) = 1 := by
      rw [Int.ceil_eq_iff] <;> norm_num
    have hf : (⌊(1/2 : ℚ)⌋ : ℤ) = 0 := by norm_num
    rw [hc, hf]
    norm_num)

end ITKPlayground
